import Mathlib

/-!
# vm-api: lifecycle orchestration of libvirt/qemu virtual machines

A shallow embedding of package `core` (`createVM`, `DeleteVM`, `getVMstatus`) together with
the `LibvirtQemu` gateway interface it drives.  Every gateway call, file-system call and log
line performed by an operation is recorded, in order, in a trace of `Event`s, so that
statements about which calls happen, how often and in which order can be made.
-/

namespace VmApi

/-! ## Go values -/

/-- Go `int` on a 64-bit platform: signed two's-complement wrap-around into `[-2^63, 2^63)`. -/
def wrapInt64 (n : Int) : Int := (n + 2 ^ 63) % 2 ^ 64 - 2 ^ 63

/-- The verb `%d` of `fmt` applied to an `int`. -/
def fmtD (n : Int) : String := toString n

/-- One lowercase hexadecimal digit. -/
def hexDigit (n : Nat) : Char := "0123456789abcdef".data.getD n '0'

/-- The verb `%02x` of `fmt` applied to a byte. -/
def fmt02x (b : Fin 256) : String := String.mk [hexDigit (b.val / 16), hexDigit (b.val % 16)]

/-- The value of a lowercase hexadecimal digit: its position among `0123456789abcdef`. -/
def hexValue (c : Char) : Nat := "0123456789abcdef".data.indexOf c

/-- Whether the list `sub` occurs as a contiguous block of the list given second. -/
def hasInfix (sub : List Char) : List Char → Bool
  | [] => sub.isPrefixOf []
  | c :: cs => sub.isPrefixOf (c :: cs) || hasInfix sub cs

/-- Go `strings.Contains s sub`, which is what `assert.Contains` checks on strings. -/
def Contains (s sub : String) : Prop := hasInfix sub.data s.data = true

instance (s sub : String) : Decidable (Contains s sub) := by
  unfold Contains; infer_instance

/-- Whether the characters `<c` occur next to each other in the list, or the list starts with
`c` while the flag says that the character before it was `<`. -/
def scanLtC : Bool → List Char → Bool
  | _, [] => false
  | p, c :: cs => (p && c == 'c') || scanLtC (c == '<') cs

/-- Whether the last character is `<`; for the empty list, the flag. -/
def endsLt : Bool → List Char → Bool
  | p, [] => p
  | _, c :: cs => endsLt (c == '<') cs

/-- The text holds no `<c` and does not end in `<`. -/
def NoLtC (s : String) : Prop := scanLtC false s.data = false ∧ endsLt false s.data = false

instance (s : String) : Decidable (NoLtC s) := by
  unfold NoLtC; infer_instance

/-! ## Errors -/

/-- The value type `libvirt.Error` of the libvirt binding. -/
structure LibvirtError where
  Code : Int
  Domain : Int
  Message : String
  Level : Int
deriving DecidableEq, Repr

/-- The constant `libvirt.ERR_NO_DOMAIN` (`VIR_ERR_NO_DOMAIN`). -/
def ERR_NO_DOMAIN : Int := 42

/-- Method `Error` of `libvirt.Error`. -/
def LibvirtError.Error (e : LibvirtError) : String :=
  "virError(Code=" ++ fmtD e.Code ++ ", Domain=" ++ fmtD e.Domain ++ ", Message='" ++ e.Message ++ "')"

/-- Type `NotFoundError` of `types.go`. -/
structure NotFoundError where
  ID : String
deriving DecidableEq, Repr

/-- Method `Error` of `NotFoundError`. -/
def NotFoundError.Error (e : NotFoundError) : String := "VM with ID " ++ e.ID ++ " not found"

/-- Constructor `NewNotFoundError` of `types.go`. -/
def NewNotFoundError (id : String) : NotFoundError := { ID := id }

/-- Go `error` values a `LibvirtQemu` gateway hands back, told apart the way package `core`
can tell them apart: a `libvirt.Error` value, on which the assertion `err.(libvirt.Error)`
succeeds; a `*NotFoundError`, on which the assertion `err.(*NotFoundError)` of the handlers
succeeds; or an error of any other dynamic type (an `fmt.Errorf` result as `LibvirtQemuImpl`
builds, a pointer to or a wrapper around a libvirt error, ...), of which only the text of
`Error()` is ever used.  The interface is open: a substitute gateway may return any of them
from any method. -/
inductive GatewayError where
  | libvirt (e : LibvirtError)
  | errorString (msg : String)
  | notFound (e : NotFoundError)
deriving DecidableEq, Repr

/-- Go `error` values returned by the operations of package `core`, by dynamic type. -/
inductive GoError where
  | libvirt (e : LibvirtError)
  | errorString (msg : String)
  | notFound (e : NotFoundError)
deriving DecidableEq, Repr

/-- A gateway error seen as a Go `error`: the same value, returned unchanged. -/
def GatewayError.toGo : GatewayError → GoError
  | .libvirt e => .libvirt e
  | .errorString msg => .errorString msg
  | .notFound e => .notFound e

/-- Method `Error` of the `error` interface on gateway errors. -/
def GatewayError.Error : GatewayError → String
  | .libvirt e => e.Error
  | .errorString msg => msg
  | .notFound e => e.Error

/-- Method `Error` of the `error` interface. -/
def GoError.Error : GoError → String
  | .libvirt e => e.Error
  | .errorString msg => msg
  | .notFound e => e.Error

/-- The type assertion `err.(*NotFoundError)` of the handlers. -/
def GoError.isNotFound : GoError → Bool
  | .notFound _ => true
  | _ => false

/-- Call `fmt.Errorf(format + ": %v", err)`: a new plain error whose text ends in `err.Error()`. -/
def Errorf (msg : String) (err : GatewayError) : GoError := .errorString (msg ++ err.Error)

/-! ## Domains and their states -/

/-- A `*libvirt.Domain` handle; the orchestrator only passes it back to the gateway. -/
abbrev Domain := Nat

/-- Type `libvirt.DomainState`, a Go `int`. -/
abbrev DomainState := Int

/-- Constant `libvirt.DOMAIN_RUNNING`. -/
def DOMAIN_RUNNING : DomainState := 1
/-- Constant `libvirt.DOMAIN_PAUSED`. -/
def DOMAIN_PAUSED : DomainState := 3
/-- Constant `libvirt.DOMAIN_SHUTOFF`. -/
def DOMAIN_SHUTOFF : DomainState := 5

/-! ## Identifiers -/

/-- A `uuid.UUID`: sixteen bytes. -/
structure UUID where
  byte : Fin 16 → Fin 256

/-- Hexadecimal rendering of the bytes at the listed positions. -/
def UUID.hex (u : UUID) (idx : List (Fin 16)) : String :=
  String.join (idx.map fun i => fmt02x (u.byte i))

/-- Method `String` of `uuid.UUID`: the canonical 8-4-4-4-12 form. -/
def UUID.String (u : UUID) : String :=
  u.hex [0, 1, 2, 3] ++ "-" ++ u.hex [4, 5] ++ "-" ++ u.hex [6, 7] ++ "-" ++ u.hex [8, 9] ++ "-"
    ++ u.hex [10, 11, 12, 13, 14, 15]

/-- The source of fresh identifiers: the values successive calls of `uuid.New()` return. -/
abbrev Entropy := Nat → UUID

/-- Call `uuid.New()`: take the next identifier and advance the source. -/
def uuidNew (rng : Entropy) : UUID × Entropy := (rng 0, fun n => rng (n + 1))

/-! ## Requests and responses -/

/-- Type `CPUPinning` of `handler-create-vm.go`. -/
structure CPUPinning where
  Cores : List Int
deriving DecidableEq, Repr

/-- Type `IOLimits` of `handler-create-vm.go`. -/
structure IOLimits where
  IOPS : Int
deriving DecidableEq, Repr

/-- Type `VMCreationRequest`; the two pointer fields are optional. -/
structure VMCreationRequest where
  VCPUs : Int
  Memory : Int
  DiskSize : Int
  BaseImage : String
  CPUPinning : Option CPUPinning
  IOLimits : Option IOLimits
deriving DecidableEq, Repr

/-- Type `VMCreationResponse`. -/
structure VMCreationResponse where
  VMID : String
  Status : String
  VCPUs : Int
  Memory : Int
  DiskSize : Int
  DiskFile : String
  MacAddress : String
  Message : String
deriving DecidableEq, Repr

/-- Type `VMDeletionResponse`. -/
structure VMDeletionResponse where
  VMID : String
  Status : String
  Message : String
  DiskFile : String
deriving DecidableEq, Repr

/-- Type `GetVMStatusResponse`. -/
structure GetVMStatusResponse where
  VMID : String
  Name : String
  Status : String
  Message : String
deriving DecidableEq, Repr

/-! ## The gateway, the file system and the trace -/

/-- Interface `LibvirtQemu` (without `NewConnect`, which the three operations never call).
An implementation carries a state of type `σ`; each method returns its Go result together
with the next state.  An `error` result is `none` for `nil`. -/
structure LibvirtQemu (σ : Type) where
  LookupDomainByUUIDString : String → σ → Except GatewayError Domain × σ
  CloneAndResizeDisk : String → String → Int → Bool → σ → Option GatewayError × σ
  DomainDefineXML : String → σ → Except GatewayError Domain × σ
  Create : Domain → σ → Option GatewayError × σ
  GetName : Domain → σ → Except GatewayError String × σ
  GetState : Domain → σ → Except GatewayError DomainState × σ
  Shutdown : Domain → σ → Option GatewayError × σ
  Destroy : Domain → σ → Option GatewayError × σ
  Undefine : Domain → σ → Option GatewayError × σ

/-- The two calls of package `os` made by `DeleteVM`, over a file-system state `φ`.
Each returns the text of its error, `none` for `nil`. -/
structure FileSystem (φ : Type) where
  Stat : String → φ → Option String × φ
  Remove : String → φ → Option String × φ

/-- One observable step of an operation: a gateway call with its arguments and result, a
file-system call with its result, or a line written with `log.Printf`. -/
inductive Event where
  | LookupDomainByUUIDString (uuid : String) (r : Except GatewayError Domain)
  | CloneAndResizeDisk (baseImage newDiskPath : String) (diskSizeGB : Int) (shrink : Bool)
      (r : Option GatewayError)
  | DomainDefineXML (xmlConfig : String) (r : Except GatewayError Domain)
  | Create (domain : Domain) (r : Option GatewayError)
  | GetName (domain : Domain) (r : Except GatewayError String)
  | GetState (domain : Domain) (r : Except GatewayError DomainState)
  | Shutdown (domain : Domain) (r : Option GatewayError)
  | Destroy (domain : Domain) (r : Option GatewayError)
  | Undefine (domain : Domain) (r : Option GatewayError)
  | Stat (path : String) (r : Option String)
  | Remove (path : String) (r : Option String)
  | Log (line : String)

/-- Whether the event is a call on the gateway. -/
def Event.isGatewayCall : Event → Bool
  | .Stat _ _ => false
  | .Remove _ _ => false
  | .Log _ => false
  | _ => true

/-- Whether the event is a call of `Undefine`. -/
def Event.isUndefine : Event → Bool
  | .Undefine _ _ => true
  | _ => false

/-- Whether the event is a call of `Destroy`. -/
def Event.isDestroy : Event → Bool
  | .Destroy _ _ => true
  | _ => false

/-- Whether the event is a call of `GetState`. -/
def Event.isGetState : Event → Bool
  | .GetState _ _ => true
  | _ => false

/-- Whether the event is a call of `Shutdown`. -/
def Event.isShutdown : Event → Bool
  | .Shutdown _ _ => true
  | _ => false

/-- Whether the event is a call of `os.Remove`. -/
def Event.isRemove : Event → Bool
  | .Remove _ _ => true
  | _ => false

/-- Whether the event is a call of `CloneAndResizeDisk`. -/
def Event.isCloneAndResizeDisk : Event → Bool
  | .CloneAndResizeDisk _ _ _ _ _ => true
  | _ => false

/-- Whether the event is a call of `os.Stat`. -/
def Event.isStat : Event → Bool
  | .Stat _ _ => true
  | _ => false

/-- The path an `os.Stat` or `os.Remove` event touches; `none` for every other event. -/
def Event.path? : Event → Option String
  | .Stat path _ => some path
  | .Remove path _ => some path
  | _ => none

/-- Whether the call recorded by the event returned without error (log lines always do). -/
def Event.succeeded : Event → Bool
  | .LookupDomainByUUIDString _ (.ok _) => true
  | .CloneAndResizeDisk _ _ _ _ none => true
  | .DomainDefineXML _ (.ok _) => true
  | .Create _ none => true
  | .GetName _ (.ok _) => true
  | .GetState _ (.ok _) => true
  | .Shutdown _ none => true
  | .Destroy _ none => true
  | .Undefine _ none => true
  | .Stat _ none => true
  | .Remove _ none => true
  | .Log _ => true
  | _ => false

/-- The descriptors passed to `DomainDefineXML` in a trace, in order. -/
def descriptorsOf : List Event → List String
  | [] => []
  | .DomainDefineXML xmlConfig _ :: t => xmlConfig :: descriptorsOf t
  | _ :: t => descriptorsOf t

/-- The destination paths passed to `CloneAndResizeDisk` in a trace, in order. -/
def cloneDestinationsOf : List Event → List String
  | [] => []
  | .CloneAndResizeDisk _ newDiskPath _ _ _ :: t => newDiskPath :: cloneDestinationsOf t
  | _ :: t => cloneDestinationsOf t

/-- The gateway calls of a trace, in order. -/
def gatewayCalls (t : List Event) : List Event := t.filter Event.isGatewayCall

/-- What one run of an operation returned and did: the Go result pair `(resp, err)`, the
trace of its steps and the gateway state it left. -/
structure Run (σ α : Type) where
  resp : Option α
  err : Option GoError
  trace : List Event
  gw : σ

/-- The run `r` seen after the steps `t` that came before it. -/
def Run.after {σ α : Type} (r : Run σ α) (t : List Event) : Run σ α :=
  { r with trace := t ++ r.trace }

/-! ## `libvirt-delete-vm.go` -/

/-- The disk path `fmt.Sprintf("/var/lib/libvirt/images/%s.qcow2", vmID)`. -/
def diskPathOf (vmID : String) : String := "/var/lib/libvirt/images/" ++ vmID ++ ".qcow2"

/-- The deferred closure of `DeleteVM`: stat the disk file and, when that succeeds, try to
remove it, logging a failure. -/
def DeleteVM.cleanup {φ : Type} (os : FileSystem φ) (diskFile : String) (f0 : φ) :
    List Event × φ :=
  let st := os.Stat diskFile f0
  match st.1 with
  | none =>
    let rm := os.Remove diskFile st.2
    match rm.1 with
    | some err =>
      ([.Stat diskFile none, .Remove diskFile (some err),
        .Log ("Failed to delete the disk file " ++ diskFile ++ ": " ++ err)], rm.2)
    | none => ([.Stat diskFile none, .Remove diskFile none], rm.2)
  | some err => ([.Stat diskFile (some err)], st.2)

/-- The part of `DeleteVM` from the state query to the return: query the state, force a stop
unless it is shut off, undefine, and build the response.  The trace holds the steps of this
part only. -/
def DeleteVM.finish {σ : Type} (lq : LibvirtQemu σ) (vmID diskFile : String) (domain : Domain)
    (s : σ) : Run σ VMDeletionResponse :=
  let gs := lq.GetState domain s
  match gs.1 with
  | .error err =>
    ⟨none, some (Errorf "failed to get VM state: " err), [.GetState domain (.error err)], gs.2⟩
  | .ok state =>
    if state ≠ DOMAIN_SHUTOFF then
      let ds := lq.Destroy domain gs.2
      match ds.1 with
      | some err =>
        ⟨none, some (Errorf "failed to forcefully stop the domain: " err),
          [.GetState domain (.ok state), .Destroy domain (some err)], ds.2⟩
      | none =>
        let un := lq.Undefine domain ds.2
        match un.1 with
        | some err =>
          ⟨none, some (Errorf "failed to undefine domain: " err),
            [.GetState domain (.ok state), .Destroy domain none, .Undefine domain (some err)],
            un.2⟩
        | none =>
          ⟨some { VMID := vmID, Status := "deleted", Message := "VM successfully deleted",
                  DiskFile := diskFile },
            none, [.GetState domain (.ok state), .Destroy domain none, .Undefine domain none],
            un.2⟩
    else
      let un := lq.Undefine domain gs.2
      match un.1 with
      | some err =>
        ⟨none, some (Errorf "failed to undefine domain: " err),
          [.GetState domain (.ok state), .Undefine domain (some err)], un.2⟩
      | none =>
        ⟨some { VMID := vmID, Status := "deleted", Message := "VM successfully deleted",
                DiskFile := diskFile },
          none, [.GetState domain (.ok state), .Undefine domain none], un.2⟩

/-- The body of `DeleteVM` after the `defer` statement: look the domain up, stop it
gracefully or else by force, then continue with `DeleteVM.finish`. -/
def DeleteVM.steps {σ : Type} (lq : LibvirtQemu σ) (vmID diskFile : String) (s0 : σ) :
    Run σ VMDeletionResponse :=
  let lk := lq.LookupDomainByUUIDString vmID s0
  match lk.1 with
  | .error err =>
    let t := [Event.LookupDomainByUUIDString vmID (.error err)]
    match err with
    | .libvirt er =>
      if er.Code = ERR_NO_DOMAIN then ⟨none, some (.notFound (NewNotFoundError vmID)), t, lk.2⟩
      else ⟨none, some err.toGo, t, lk.2⟩
    | .errorString _ => ⟨none, some err.toGo, t, lk.2⟩
    | .notFound _ => ⟨none, some err.toGo, t, lk.2⟩
  | .ok domain =>
    let sd := lq.Shutdown domain lk.2
    match sd.1 with
    | some err =>
      let ds := lq.Destroy domain sd.2
      match ds.1 with
      | some err1 =>
        ⟨none, some (Errorf "failed to forcefully stop the domain: " err1),
          [.LookupDomainByUUIDString vmID (.ok domain), .Shutdown domain (some err),
            .Log ("Graceful shutdown failed, forcing stop for VM " ++ vmID),
            .Destroy domain (some err1)], ds.2⟩
      | none =>
        (DeleteVM.finish lq vmID diskFile domain ds.2).after
          [.LookupDomainByUUIDString vmID (.ok domain), .Shutdown domain (some err),
            .Log ("Graceful shutdown failed, forcing stop for VM " ++ vmID),
            .Destroy domain none]
    | none =>
      (DeleteVM.finish lq vmID diskFile domain sd.2).after
        [.LookupDomainByUUIDString vmID (.ok domain), .Shutdown domain none]

/-- What one run of `DeleteVM` returned and did, file system included. -/
structure DeleteRun (σ φ : Type) where
  resp : Option VMDeletionResponse
  err : Option GoError
  trace : List Event
  gw : σ
  fs : φ

/-- Function `DeleteVM`: the body runs first and fixes the returned pair; the deferred
clean-up of the disk file runs after it, on every return path. -/
def DeleteVM {σ φ : Type} (lq : LibvirtQemu σ) (os : FileSystem φ) (vmID : String) (s0 : σ)
    (f0 : φ) : DeleteRun σ φ :=
  let diskFile := diskPathOf vmID
  let r := DeleteVM.steps lq vmID diskFile s0
  let d := DeleteVM.cleanup os diskFile f0
  { resp := r.resp, err := r.err, trace := r.trace ++ d.1, gw := r.gw, fs := d.2 }

/-! ## `libvirt-vm-status.go` -/

/-- The `switch state` of `getVMstatus`. -/
def statusOf (state : DomainState) : String :=
  if state = DOMAIN_RUNNING then "running"
  else if state = DOMAIN_SHUTOFF then "stopped"
  else if state = DOMAIN_PAUSED then "paused"
  else "unknown"

/-- Function `getVMstatus`. -/
def getVMstatus {σ : Type} (lq : LibvirtQemu σ) (vmID : String) (s0 : σ) :
    Run σ GetVMStatusResponse :=
  let lk := lq.LookupDomainByUUIDString vmID s0
  match lk.1 with
  | .error err =>
    let t := [Event.LookupDomainByUUIDString vmID (.error err)]
    match err with
    | .libvirt er =>
      if er.Code = ERR_NO_DOMAIN then ⟨none, some (.notFound (NewNotFoundError vmID)), t, lk.2⟩
      else ⟨none, some err.toGo, t, lk.2⟩
    | .errorString _ => ⟨none, some err.toGo, t, lk.2⟩
    | .notFound _ => ⟨none, some err.toGo, t, lk.2⟩
  | .ok domain =>
    let t := [Event.LookupDomainByUUIDString vmID (.ok domain)]
    let gn := lq.GetName domain lk.2
    match gn.1 with
    | .error err => ⟨none, some err.toGo, t ++ [.GetName domain (.error err)], gn.2⟩
    | .ok name =>
      let t1 := t ++ [.GetName domain (.ok name)]
      let gs := lq.GetState domain gn.2
      match gs.1 with
      | .error err => ⟨none, some err.toGo, t1 ++ [.GetState domain (.error err)], gs.2⟩
      | .ok state =>
        let status := statusOf state
        ⟨some { VMID := vmID, Name := name, Status := status,
                Message := "VM " ++ name ++ " is " ++ status },
          none, t1 ++ [.GetState domain (.ok state)], gs.2⟩

/-! ## `libvirt-create-vm.go` -/

/-- Function `generateMACAddress`: draw a fresh identifier and render its first three bytes
after the fixed `00:16:3e:`. -/
def generateMACAddress (rng : Entropy) : String × Entropy :=
  let u := uuidNew rng
  ("00:16:3e:" ++ fmt02x (u.1.byte 0) ++ ":" ++ fmt02x (u.1.byte 1) ++ ":" ++ fmt02x (u.1.byte 2),
    u.2)

/-- The CPU pinning section built by `createVM`: empty without pinning, otherwise one
`numactrl` element per requested core, appended in request order. -/
def cpuPinningXMLOf (pinning : Option CPUPinning) : String :=
  match pinning with
  | none => ""
  | some p =>
    p.Cores.foldl (fun pinningXML core => pinningXML ++ ("<numactrl id='" ++ fmtD core ++ "'/>"))
        "<cpu mode='host-passthrough' check='full'><numactrls>"
      ++ "</numactrls></cpu>"

/-- The format string of the domain descriptor in `createVM` with its seven verbs filled in:
name, uuid, memory, vcpu, disk source, MAC address and CPU pinning section.  The text is that
of the source, cut at its line breaks and around the elements that carry a verb. -/
def xmlConfigOf (name uuid : String) (memory vcpus : Int) (diskPath mac cpuPinningXML : String) :
    String :=
  "\n" ++ "<domain type='kvm'>" ++ "\n" ++
  "  " ++ ("<name>" ++ name ++ "</name>") ++ "\n" ++
  "  " ++ ("<uuid>" ++ uuid ++ "</uuid>") ++ "\n" ++
  "  " ++ ("<memory unit='KiB'>" ++ fmtD memory ++ "</memory>") ++ "\n" ++
  "  " ++ ("<vcpu placement='static'>" ++ fmtD vcpus ++ "</vcpu>") ++ "\n" ++
  "  <os>\n" ++
  "    <type arch='x86_64' machine='pc-i440fx-2.9'>hvm</type>\n" ++
  "    <boot dev='hd'/>\n" ++
  "  </os>\n" ++
  "  <devices>\n" ++
  "    <disk type='file' device='disk'>\n" ++
  "      " ++ "<driver name='qemu' type='qcow2'/>" ++ "\n" ++
  "      " ++ ("<source file='" ++ diskPath ++ "'/>") ++ "\n" ++
  "      <target dev='vda' bus='virtio'/>\n" ++
  "      <address type='pci' domain='0x0000' bus='0x00' slot='0x04' function='0x0'/>\n" ++
  "    </disk>\n" ++
  "    <interface type='network'>\n" ++
  "      " ++ ("<mac address='" ++ mac ++ "'/>") ++ "\n" ++
  "      <source network='default'/>\n" ++
  "      <model type='virtio'/>\n" ++
  "      <address type='pci' domain='0x0000' bus='0x00' slot='0x03' function='0x0'/>\n" ++
  "    </interface>\n" ++
  "  </devices>\n" ++
  "  " ++ cpuPinningXML ++ "\n" ++
  "</domain>"

/-- What one run of `createVM` returned and did, with the identifier source it left. -/
structure CreateRun (σ : Type) where
  resp : Option VMCreationResponse
  err : Option GoError
  trace : List Event
  gw : σ
  rng : Entropy

/-- Function `createVM`.  The product `request.Memory*1024` is a product of Go `int`s. -/
def createVM {σ : Type} (request : VMCreationRequest) (lq : LibvirtQemu σ) (s0 : σ)
    (rng0 : Entropy) : CreateRun σ :=
  let id := uuidNew rng0
  let vmID := id.1.String
  let diskPath := diskPathOf vmID
  let cl := lq.CloneAndResizeDisk request.BaseImage diskPath request.DiskSize true s0
  let t := [Event.CloneAndResizeDisk request.BaseImage diskPath request.DiskSize true cl.1]
  match cl.1 with
  | some err => ⟨none, some (Errorf "failed to clone and resize disk: " err), t, cl.2, id.2⟩
  | none =>
    let cpuPinningXML := cpuPinningXMLOf request.CPUPinning
    let mac := generateMACAddress id.2
    let xmlConfig := xmlConfigOf vmID vmID (wrapInt64 (request.Memory * 1024)) request.VCPUs
      diskPath mac.1 cpuPinningXML
    let df := lq.DomainDefineXML xmlConfig cl.2
    match df.1 with
    | .error err =>
      ⟨none, some (Errorf "failed to define the domain: " err),
        t ++ [.DomainDefineXML xmlConfig (.error err)], df.2, mac.2⟩
    | .ok domain =>
      let t1 := t ++ [.DomainDefineXML xmlConfig (.ok domain)]
      let cr := lq.Create domain df.2
      match cr.1 with
      | some err =>
        ⟨none, some (Errorf "failed to start the domain: " err),
          t1 ++ [.Create domain (some err)], cr.2, mac.2⟩
      | none =>
        -- the block of `if request.IOLimits != nil` holds comments only: nothing runs in it
        let mac1 := generateMACAddress mac.2
        ⟨some { VMID := vmID, Status := "running", VCPUs := request.VCPUs,
                Memory := request.Memory, DiskSize := request.DiskSize, DiskFile := diskPath,
                MacAddress := mac1.1, Message := "VM successfully created and storage cloned" },
          none, t1 ++ [.Create domain none], cr.2, mac1.2⟩

/-! ## `libvirt-qemu.go`: the disk provisioner -/

/-- The external tool runner behind `exec.Command(name, args...).Run()`, over a machine state
`ω`: given the argument vector, program name first, it returns the text of the error, `none`
for `nil`. -/
structure Shell (ω : Type) where
  Run : List String → ω → Option String × ω

/-- What one run of the disk provisioner returned and did: the returned `error`, the argument
vectors of the commands it ran with their results, in order, the lines it printed with
`fmt.Println`, and the machine state it left. -/
structure ShellRun (ω : Type) where
  err : Option GatewayError
  commands : List (List String × Option String)
  printed : List String
  sh : ω

/-- The argument vector of the clone command. -/
def cloneCommand (baseImage newDiskPath : String) : List String :=
  ["qemu-img", "create", "-f", "qcow2", "-F", "qcow2", "-b", baseImage, newDiskPath]

/-- The argument vector of the resize command, as the `if shrink` of the source builds it. -/
def resizeCommand (newDiskPath : String) (diskSizeGB : Int) (shrink : Bool) : List String :=
  if shrink then ["qemu-img", "resize", "--shrink", newDiskPath, fmtD diskSizeGB ++ "G"]
  else ["qemu-img", "resize", newDiskPath, fmtD diskSizeGB ++ "G"]

/-- Method `CloneAndResizeDisk` of `LibvirtQemuImpl`. -/
def LibvirtQemuImpl.CloneAndResizeDisk {ω : Type} (sh : Shell ω) (baseImage newDiskPath : String)
    (diskSizeGB : Int) (shrink : Bool) (w0 : ω) : ShellRun ω :=
  let cmd := cloneCommand baseImage newDiskPath
  let c := sh.Run cmd w0
  match c.1 with
  | some err =>
    ⟨some (.errorString ("failed to clone the base image: " ++ err)), [(cmd, some err)], [], c.2⟩
  | none =>
    let resizeCmd := resizeCommand newDiskPath diskSizeGB shrink
    let r := sh.Run resizeCmd c.2
    match r.1 with
    | some err =>
      ⟨some (.errorString ("failed to resize the disk: " ++ err)),
        [(cmd, none), (resizeCmd, some err)], [], r.2⟩
    | none => ⟨none, [(cmd, none), (resizeCmd, none)], [], r.2⟩

/-- Function `cloneAndResizeDisk` of `libvirt-create-vm.go`; it also prints the error of a
failed clone. -/
def cloneAndResizeDisk {ω : Type} (sh : Shell ω) (baseImage newDiskPath : String)
    (diskSizeGB : Int) (shrink : Bool) (w0 : ω) : ShellRun ω :=
  let cmd := cloneCommand baseImage newDiskPath
  let c := sh.Run cmd w0
  match c.1 with
  | some err =>
    ⟨some (.errorString ("failed to clone the base image: " ++ err)), [(cmd, some err)],
      [err], c.2⟩
  | none =>
    let resizeCmd := resizeCommand newDiskPath diskSizeGB shrink
    let r := sh.Run resizeCmd c.2
    match r.1 with
    | some err =>
      ⟨some (.errorString ("failed to resize the disk: " ++ err)),
        [(cmd, none), (resizeCmd, some err)], [], r.2⟩
    | none => ⟨none, [(cmd, none), (resizeCmd, none)], [], r.2⟩

/-! ## Concrete gateways, file systems and inputs used to instantiate the theorems -/

/-- The identifier of the tests, byte by byte: `123e4567-e89b-12d3-a456-426614174000`. -/
def testUUID : UUID :=
  ⟨fun i => ([0x12, 0x3e, 0x45, 0x67, 0xe8, 0x9b, 0x12, 0xd3, 0xa4, 0x56, 0x42, 0x66, 0x14, 0x17,
    0x40, 0x00] : List (Fin 256)).getD i.val 0⟩

/-- An identifier source that always yields `testUUID`. -/
def testEntropy : Entropy := fun _ => testUUID

/-- The request of `TestCreateVM`. -/
def testRequest : VMCreationRequest :=
  { VCPUs := 2, Memory := 4096, DiskSize := 20,
    BaseImage := "/var/lib/libvirt/images/ubuntu-base.qcow2",
    CPUPinning := some { Cores := [0, 1] }, IOLimits := none }

/-- A request whose memory size, 2^53 MB, is a Go `int` but whose size in KiB is not. -/
def bigRequest : VMCreationRequest :=
  { VCPUs := 2, Memory := 9007199254740992, DiskSize := 20,
    BaseImage := "/var/lib/libvirt/images/ubuntu-base.qcow2",
    CPUPinning := none, IOLimits := none }

/-- A scripted gateway: a stateless implementation answering each method with a fixed value. -/
structure Script where
  lookup : Except GatewayError Domain
  clone : Option GatewayError
  define : Except GatewayError Domain
  create : Option GatewayError
  getName : Except GatewayError String
  getState : Except GatewayError DomainState
  shutdown : Option GatewayError
  destroy : Option GatewayError
  undefine : Option GatewayError

/-- The gateway that answers as the script says. -/
def Script.gateway (sc : Script) : LibvirtQemu Unit where
  LookupDomainByUUIDString := fun _ s => (sc.lookup, s)
  CloneAndResizeDisk := fun _ _ _ _ s => (sc.clone, s)
  DomainDefineXML := fun _ s => (sc.define, s)
  Create := fun _ s => (sc.create, s)
  GetName := fun _ s => (sc.getName, s)
  GetState := fun _ s => (sc.getState, s)
  Shutdown := fun _ s => (sc.shutdown, s)
  Destroy := fun _ s => (sc.destroy, s)
  Undefine := fun _ s => (sc.undefine, s)

/-- The script of the tests: every call succeeds, the domain is named `testVM` and is shut off. -/
def okScript : Script :=
  { lookup := .ok 7, clone := none, define := .ok 7, create := none, getName := .ok "testVM",
    getState := .ok DOMAIN_SHUTOFF, shutdown := none, destroy := none, undefine := none }

/-- A script on which the graceful stop and the state query fail while every other call
succeeds. -/
def stateQueryFails : Script :=
  { okScript with
    shutdown := some (.errorString "failed to gracefully shut down the domain: timeout"),
    getState := .error (.errorString "failed to get the domain state: connection lost") }

/-- A script on which only the graceful stop fails and the domain then reads as running. -/
def shutdownFails : Script :=
  { okScript with
    shutdown := some (.errorString "failed to gracefully shut down the domain: timeout"),
    getState := .ok DOMAIN_RUNNING }

/-- A script on which the lookup fails with a `*NotFoundError` for another identifier, as a
substitute gateway may return. -/
def foreignNotFound : Script :=
  { okScript with lookup := .error (.notFound (NewNotFoundError "other")) }

/-- A script on which only `Undefine` fails. -/
def undefineFails : Script :=
  { okScript with undefine := some (.errorString "failed to undefine the domain: busy") }

/-- A file system on which the disk file is absent. -/
def absentFS : FileSystem Unit where
  Stat := fun _ f => (some "no such file or directory", f)
  Remove := fun _ f => (some "no such file or directory", f)

/-- A file system on which the disk file exists and cannot be removed. -/
def deniedFS : FileSystem Unit where
  Stat := fun _ f => (none, f)
  Remove := fun _ f => (some "permission denied", f)

/-- A file system on which the disk file exists and is removed. -/
def okFS : FileSystem Unit where
  Stat := fun _ f => (none, f)
  Remove := fun _ f => (none, f)

/-- An identifier source whose `n`-th identifier has all sixteen bytes equal to `n`. -/
def countingEntropy : Entropy := fun n => ⟨fun _ => ⟨n % 256, Nat.mod_lt n (by decide)⟩⟩

/-- A tool runner on which every command succeeds. -/
def okShell : Shell Unit where
  Run := fun _ w => (none, w)

/-- A script on which the domain still reads as running after a successful graceful stop,
and every call succeeds. -/
def stillRunning : Script := { okScript with getState := .ok DOMAIN_RUNNING }

/-- The identifier used by `TestDeleteVM` and `TestGetVMStatus`. -/
def testID : String := "123e4567-e89b-12d3-a456-426614174000"

end VmApi

namespace VmApi

/-! ## Auxiliary facts -/

theorem hasInfix_iff (sub l : List Char) : hasInfix sub l = true ↔ sub <:+: l := by
  induction l with
  | nil => simp [hasInfix]
  | cons c cs ih =>
    simp only [hasInfix, Bool.or_eq_true, ih, List.infix_cons_iff, List.isPrefixOf_iff_prefix]

theorem contains_iff (s sub : String) : Contains s sub ↔ sub.data <:+: s.data :=
  hasInfix_iff sub.data s.data

theorem contains_append_self (a b : String) : Contains (a ++ b) b := by
  rw [contains_iff, String.data_append]
  exact (List.suffix_append _ _).isInfix

theorem contains_append_of_left (s t b : String) (h : Contains s b) : Contains (s ++ t) b := by
  rw [contains_iff] at h ⊢
  rw [String.data_append]
  exact h.trans (List.prefix_append _ _).isInfix

theorem contains_mid (a b c : String) : Contains (a ++ b ++ c) b :=
  contains_append_of_left _ _ _ (contains_append_self a b)

theorem cleanup_no_gateway {φ : Type} (os : FileSystem φ) (p : String) (f : φ) :
    ∀ e ∈ (DeleteVM.cleanup os p f).1, e.isGatewayCall = false := by
  unfold DeleteVM.cleanup
  simp only []
  split
  · split <;> simp [Event.isGatewayCall]
  · simp [Event.isGatewayCall]

theorem gatewayCalls_cleanup {φ : Type} (os : FileSystem φ) (p : String) (f : φ) :
    gatewayCalls (DeleteVM.cleanup os p f).1 = [] := by
  unfold gatewayCalls
  rw [List.filter_eq_nil_iff]
  intro e he
  simp [cleanup_no_gateway os p f e he]

theorem cleanup_countP_isUndefine {φ : Type} (os : FileSystem φ) (p : String) (f : φ) :
    (DeleteVM.cleanup os p f).1.countP Event.isUndefine = 0 := by
  rw [List.countP_eq_zero]
  intro e he
  have := cleanup_no_gateway os p f e he
  cases e <;> simp_all [Event.isUndefine, Event.isGatewayCall]

theorem cleanup_countP_isDestroy {φ : Type} (os : FileSystem φ) (p : String) (f : φ) :
    (DeleteVM.cleanup os p f).1.countP Event.isDestroy = 0 := by
  rw [List.countP_eq_zero]
  intro e he
  have := cleanup_no_gateway os p f e he
  cases e <;> simp_all [Event.isDestroy, Event.isGatewayCall]

theorem gatewayCalls_DeleteVM {σ φ : Type} (lq : LibvirtQemu σ) (os : FileSystem φ)
    (vmID : String) (s0 : σ) (f0 : φ) :
    gatewayCalls (DeleteVM lq os vmID s0 f0).trace =
      gatewayCalls (DeleteVM.steps lq vmID (diskPathOf vmID) s0).trace := by
  have hc := gatewayCalls_cleanup os (diskPathOf vmID) f0
  unfold gatewayCalls at hc ⊢
  simp only [DeleteVM, List.filter_append, hc, List.append_nil]

/-- The six ways in which `DeleteVM.finish` can run, each with its result and its trace. -/
theorem finish_cases {σ : Type} (lq : LibvirtQemu σ) (vmID diskFile : String) (d : Domain)
    (s : σ) :
    (∃ e, (DeleteVM.finish lq vmID diskFile d s).resp = none ∧
      (DeleteVM.finish lq vmID diskFile d s).err = some (Errorf "failed to get VM state: " e) ∧
      (DeleteVM.finish lq vmID diskFile d s).trace = [.GetState d (.error e)]) ∨
    (∃ st e, st ≠ DOMAIN_SHUTOFF ∧ (DeleteVM.finish lq vmID diskFile d s).resp = none ∧
      (DeleteVM.finish lq vmID diskFile d s).err =
        some (Errorf "failed to forcefully stop the domain: " e) ∧
      (DeleteVM.finish lq vmID diskFile d s).trace =
        [.GetState d (.ok st), .Destroy d (some e)]) ∨
    (∃ st e, st ≠ DOMAIN_SHUTOFF ∧ (DeleteVM.finish lq vmID diskFile d s).resp = none ∧
      (DeleteVM.finish lq vmID diskFile d s).err =
        some (Errorf "failed to undefine domain: " e) ∧
      (DeleteVM.finish lq vmID diskFile d s).trace =
        [.GetState d (.ok st), .Destroy d none, .Undefine d (some e)]) ∨
    (∃ st, st ≠ DOMAIN_SHUTOFF ∧
      (DeleteVM.finish lq vmID diskFile d s).resp =
        some ⟨vmID, "deleted", "VM successfully deleted", diskFile⟩ ∧
      (DeleteVM.finish lq vmID diskFile d s).err = none ∧
      (DeleteVM.finish lq vmID diskFile d s).trace =
        [.GetState d (.ok st), .Destroy d none, .Undefine d none]) ∨
    (∃ e, (DeleteVM.finish lq vmID diskFile d s).resp = none ∧
      (DeleteVM.finish lq vmID diskFile d s).err =
        some (Errorf "failed to undefine domain: " e) ∧
      (DeleteVM.finish lq vmID diskFile d s).trace =
        [.GetState d (.ok DOMAIN_SHUTOFF), .Undefine d (some e)]) ∨
    ((DeleteVM.finish lq vmID diskFile d s).resp =
        some ⟨vmID, "deleted", "VM successfully deleted", diskFile⟩ ∧
      (DeleteVM.finish lq vmID diskFile d s).err = none ∧
      (DeleteVM.finish lq vmID diskFile d s).trace =
        [.GetState d (.ok DOMAIN_SHUTOFF), .Undefine d none]) := by
  unfold DeleteVM.finish
  simp only []
  split
  · exact Or.inl ⟨_, rfl, rfl, rfl⟩
  · rename_i st _
    split
    · rename_i hst
      split
      · exact Or.inr (Or.inl ⟨st, _, hst, rfl, rfl, rfl⟩)
      · split
        · exact Or.inr (Or.inr (Or.inl ⟨st, _, hst, rfl, rfl, rfl⟩))
        · exact Or.inr (Or.inr (Or.inr (Or.inl ⟨st, hst, rfl, rfl, rfl⟩)))
    · rename_i hst
      have hst1 : st = DOMAIN_SHUTOFF := not_not.mp hst
      subst hst1
      split
      · exact Or.inr (Or.inr (Or.inr (Or.inr (Or.inl ⟨_, rfl, rfl, rfl⟩))))
      · exact Or.inr (Or.inr (Or.inr (Or.inr (Or.inr ⟨rfl, rfl, rfl⟩))))

/-- The ways in which the body of `DeleteVM` can run: the lookup fails; the graceful and the
forced stop both fail; or a stop path completes and `DeleteVM.finish` runs after it. -/
theorem steps_cases {σ : Type} (lq : LibvirtQemu σ) (vmID diskFile : String) (s0 : σ) :
    (∃ e g, (lq.LookupDomainByUUIDString vmID s0).1 = .error e ∧
      (DeleteVM.steps lq vmID diskFile s0).resp = none ∧
      (DeleteVM.steps lq vmID diskFile s0).err = some g ∧
      (DeleteVM.steps lq vmID diskFile s0).trace = [.LookupDomainByUUIDString vmID (.error e)]) ∨
    (∃ d e e1, (lq.LookupDomainByUUIDString vmID s0).1 = .ok d ∧
      (lq.Shutdown d (lq.LookupDomainByUUIDString vmID s0).2).1 = some e ∧
      (lq.Destroy d (lq.Shutdown d (lq.LookupDomainByUUIDString vmID s0).2).2).1 = some e1 ∧
      (DeleteVM.steps lq vmID diskFile s0).resp = none ∧
      (DeleteVM.steps lq vmID diskFile s0).err =
        some (Errorf "failed to forcefully stop the domain: " e1) ∧
      (DeleteVM.steps lq vmID diskFile s0).trace =
        [.LookupDomainByUUIDString vmID (.ok d), .Shutdown d (some e),
          .Log ("Graceful shutdown failed, forcing stop for VM " ++ vmID),
          .Destroy d (some e1)]) ∨
    (∃ d e s, (lq.LookupDomainByUUIDString vmID s0).1 = .ok d ∧
      (lq.Shutdown d (lq.LookupDomainByUUIDString vmID s0).2).1 = some e ∧
      DeleteVM.steps lq vmID diskFile s0 = (DeleteVM.finish lq vmID diskFile d s).after
        [.LookupDomainByUUIDString vmID (.ok d), .Shutdown d (some e),
          .Log ("Graceful shutdown failed, forcing stop for VM " ++ vmID), .Destroy d none]) ∨
    (∃ d s, (lq.LookupDomainByUUIDString vmID s0).1 = .ok d ∧
      (lq.Shutdown d (lq.LookupDomainByUUIDString vmID s0).2).1 = none ∧
      DeleteVM.steps lq vmID diskFile s0 = (DeleteVM.finish lq vmID diskFile d s).after
        [.LookupDomainByUUIDString vmID (.ok d), .Shutdown d none]) := by
  unfold DeleteVM.steps
  simp only []
  split
  · rename_i e he
    refine Or.inl ⟨e, ?_⟩
    split
    · split
      · exact ⟨_, he, rfl, rfl, rfl⟩
      · exact ⟨_, he, rfl, rfl, rfl⟩
    · exact ⟨_, he, rfl, rfl, rfl⟩
    · exact ⟨_, he, rfl, rfl, rfl⟩
  · rename_i d hd
    split
    · rename_i e he
      split
      · rename_i e1 he1
        exact Or.inr (Or.inl ⟨d, e, e1, hd, he, he1, rfl, rfl, rfl⟩)
      · exact Or.inr (Or.inr (Or.inl ⟨d, e, _, hd, he, rfl⟩))
    · rename_i he
      exact Or.inr (Or.inr (Or.inr ⟨d, _, hd, he, rfl⟩))

theorem wrapInt64_of_fits (n : Int) (h1 : -2 ^ 63 ≤ n) (h2 : n < 2 ^ 63) : wrapInt64 n = n := by
  unfold wrapInt64
  omega

theorem xmlConfigOf_elements (name uuid : String) (memory vcpus : Int)
    (diskPath mac cpuPinningXML : String) :
    Contains (xmlConfigOf name uuid memory vcpus diskPath mac cpuPinningXML)
      "<domain type='kvm'>" ∧
    Contains (xmlConfigOf name uuid memory vcpus diskPath mac cpuPinningXML)
      ("<name>" ++ name ++ "</name>") ∧
    Contains (xmlConfigOf name uuid memory vcpus diskPath mac cpuPinningXML)
      ("<uuid>" ++ uuid ++ "</uuid>") ∧
    Contains (xmlConfigOf name uuid memory vcpus diskPath mac cpuPinningXML)
      ("<memory unit='KiB'>" ++ fmtD memory ++ "</memory>") ∧
    Contains (xmlConfigOf name uuid memory vcpus diskPath mac cpuPinningXML)
      ("<vcpu placement='static'>" ++ fmtD vcpus ++ "</vcpu>") ∧
    Contains (xmlConfigOf name uuid memory vcpus diskPath mac cpuPinningXML)
      "<driver name='qemu' type='qcow2'/>" ∧
    Contains (xmlConfigOf name uuid memory vcpus diskPath mac cpuPinningXML)
      ("<source file='" ++ diskPath ++ "'/>") ∧
    Contains (xmlConfigOf name uuid memory vcpus diskPath mac cpuPinningXML)
      ("<mac address='" ++ mac ++ "'/>") := by
  unfold xmlConfigOf
  refine ⟨?_, ?_, ?_, ?_, ?_, ?_, ?_, ?_⟩ <;>
    repeat (first | with_reducible exact contains_append_self _ _ | with_reducible apply contains_append_of_left)

set_option maxRecDepth 100000 in
/-- The descriptor text against the format string of the source, with the verbs filled by
`N`, `U`, `1`, `2`, `D`, `M` and `C`. -/
theorem xmlConfigOf_template :
    xmlConfigOf "N" "U" 1 2 "D" "M" "C" =
      "\n<domain type='kvm'>\n  <name>N</name>\n  <uuid>U</uuid>\n" ++
      "  <memory unit='KiB'>1</memory>\n  <vcpu placement='static'>2</vcpu>\n" ++
      "  <os>\n    <type arch='x86_64' machine='pc-i440fx-2.9'>hvm</type>\n" ++
      "    <boot dev='hd'/>\n  </os>\n  <devices>\n" ++
      "    <disk type='file' device='disk'>\n      <driver name='qemu' type='qcow2'/>\n" ++
      "      <source file='D'/>\n      <target dev='vda' bus='virtio'/>\n" ++
      "      <address type='pci' domain='0x0000' bus='0x00' slot='0x04' function='0x0'/>\n" ++
      "    </disk>\n    <interface type='network'>\n      <mac address='M'/>\n" ++
      "      <source network='default'/>\n      <model type='virtio'/>\n" ++
      "      <address type='pci' domain='0x0000' bus='0x00' slot='0x03' function='0x0'/>\n" ++
      "    </interface>\n  </devices>\n  C\n</domain>" := by
  decide

/-- The four ways in which `createVM` can run, each with its result and its trace. -/
theorem createVM_paths {σ : Type} (request : VMCreationRequest) (lq : LibvirtQemu σ) (s0 : σ)
    (rng0 : Entropy) :
    (∃ e, (lq.CloneAndResizeDisk request.BaseImage (diskPathOf (rng0 0).String)
          request.DiskSize true s0).1 = some e ∧
      (createVM request lq s0 rng0).trace =
        [.CloneAndResizeDisk request.BaseImage (diskPathOf (rng0 0).String) request.DiskSize true
          (some e)] ∧
      (createVM request lq s0 rng0).resp = none ∧
      (createVM request lq s0 rng0).err = some (Errorf "failed to clone and resize disk: " e)) ∨
    (∃ e, (createVM request lq s0 rng0).trace =
        [.CloneAndResizeDisk request.BaseImage (diskPathOf (rng0 0).String) request.DiskSize true
          none,
         .DomainDefineXML (xmlConfigOf (rng0 0).String (rng0 0).String
            (wrapInt64 (request.Memory * 1024)) request.VCPUs (diskPathOf (rng0 0).String)
            (generateMACAddress fun n => rng0 (n + 1)).1 (cpuPinningXMLOf request.CPUPinning))
            (.error e)] ∧
      (createVM request lq s0 rng0).resp = none ∧
      (createVM request lq s0 rng0).err = some (Errorf "failed to define the domain: " e)) ∨
    (∃ d e, (createVM request lq s0 rng0).trace =
        [.CloneAndResizeDisk request.BaseImage (diskPathOf (rng0 0).String) request.DiskSize true
          none,
         .DomainDefineXML (xmlConfigOf (rng0 0).String (rng0 0).String
            (wrapInt64 (request.Memory * 1024)) request.VCPUs (diskPathOf (rng0 0).String)
            (generateMACAddress fun n => rng0 (n + 1)).1 (cpuPinningXMLOf request.CPUPinning))
            (.ok d),
         .Create d (some e)] ∧
      (createVM request lq s0 rng0).resp = none ∧
      (createVM request lq s0 rng0).err = some (Errorf "failed to start the domain: " e)) ∨
    (∃ d, (createVM request lq s0 rng0).trace =
        [.CloneAndResizeDisk request.BaseImage (diskPathOf (rng0 0).String) request.DiskSize true
          none,
         .DomainDefineXML (xmlConfigOf (rng0 0).String (rng0 0).String
            (wrapInt64 (request.Memory * 1024)) request.VCPUs (diskPathOf (rng0 0).String)
            (generateMACAddress fun n => rng0 (n + 1)).1 (cpuPinningXMLOf request.CPUPinning))
            (.ok d),
         .Create d none] ∧
      (createVM request lq s0 rng0).resp =
        some ⟨(rng0 0).String, "running", request.VCPUs, request.Memory, request.DiskSize,
          diskPathOf (rng0 0).String,
          (generateMACAddress (generateMACAddress fun n => rng0 (n + 1)).2).1,
          "VM successfully created and storage cloned"⟩ ∧
      (createVM request lq s0 rng0).err = none) := by
  unfold createVM
  simp only [uuidNew]
  split
  · rename_i e he
    exact Or.inl ⟨e, he, by rw [he], rfl, rfl⟩
  · rename_i hc
    split
    · rename_i e he
      exact Or.inr (Or.inl ⟨e, by rw [hc]; rfl, rfl, rfl⟩)
    · rename_i d hd
      split
      · rename_i e he
        exact Or.inr (Or.inr (Or.inl ⟨d, e, by rw [hc]; rfl, rfl, rfl⟩))
      · exact Or.inr (Or.inr (Or.inr ⟨d, by rw [hc]; rfl, rfl, rfl⟩))

/-- The run of `DeleteVM.finish` on each of its paths, from what the gateway answers. -/
theorem finish_run {σ : Type} (lq : LibvirtQemu σ) (vmID diskFile : String) (d : Domain)
    (s : σ) :
    (∀ e, (lq.GetState d s).1 = .error e →
      DeleteVM.finish lq vmID diskFile d s =
        ⟨none, some (Errorf "failed to get VM state: " e), [.GetState d (.error e)],
          (lq.GetState d s).2⟩) ∧
    (∀ st e, (lq.GetState d s).1 = .ok st → st ≠ DOMAIN_SHUTOFF →
      (lq.Destroy d (lq.GetState d s).2).1 = some e →
      DeleteVM.finish lq vmID diskFile d s =
        ⟨none, some (Errorf "failed to forcefully stop the domain: " e),
          [.GetState d (.ok st), .Destroy d (some e)], (lq.Destroy d (lq.GetState d s).2).2⟩) ∧
    (∀ st e, (lq.GetState d s).1 = .ok st → st ≠ DOMAIN_SHUTOFF →
      (lq.Destroy d (lq.GetState d s).2).1 = none →
      (lq.Undefine d (lq.Destroy d (lq.GetState d s).2).2).1 = some e →
      DeleteVM.finish lq vmID diskFile d s =
        ⟨none, some (Errorf "failed to undefine domain: " e),
          [.GetState d (.ok st), .Destroy d none, .Undefine d (some e)],
          (lq.Undefine d (lq.Destroy d (lq.GetState d s).2).2).2⟩) ∧
    (∀ st, (lq.GetState d s).1 = .ok st → st ≠ DOMAIN_SHUTOFF →
      (lq.Destroy d (lq.GetState d s).2).1 = none →
      (lq.Undefine d (lq.Destroy d (lq.GetState d s).2).2).1 = none →
      DeleteVM.finish lq vmID diskFile d s =
        ⟨some ⟨vmID, "deleted", "VM successfully deleted", diskFile⟩, none,
          [.GetState d (.ok st), .Destroy d none, .Undefine d none],
          (lq.Undefine d (lq.Destroy d (lq.GetState d s).2).2).2⟩) ∧
    (∀ e, (lq.GetState d s).1 = .ok DOMAIN_SHUTOFF →
      (lq.Undefine d (lq.GetState d s).2).1 = some e →
      DeleteVM.finish lq vmID diskFile d s =
        ⟨none, some (Errorf "failed to undefine domain: " e),
          [.GetState d (.ok DOMAIN_SHUTOFF), .Undefine d (some e)],
          (lq.Undefine d (lq.GetState d s).2).2⟩) ∧
    ((lq.GetState d s).1 = .ok DOMAIN_SHUTOFF →
      (lq.Undefine d (lq.GetState d s).2).1 = none →
      DeleteVM.finish lq vmID diskFile d s =
        ⟨some ⟨vmID, "deleted", "VM successfully deleted", diskFile⟩, none,
          [.GetState d (.ok DOMAIN_SHUTOFF), .Undefine d none],
          (lq.Undefine d (lq.GetState d s).2).2⟩) := by
  refine ⟨?_, ?_, ?_, ?_, ?_, ?_⟩
  · intro e h
    simp only [DeleteVM.finish, h]
  · intro st e h hst hd
    simp only [DeleteVM.finish, h, hd, ne_eq, hst, not_false_eq_true, if_true]
  · intro st e h hst hd hu
    simp only [DeleteVM.finish, h, hd, hu, ne_eq, hst, not_false_eq_true, if_true]
  · intro st h hst hd hu
    simp only [DeleteVM.finish, h, hd, hu, ne_eq, hst, not_false_eq_true, if_true]
  · intro e h hu
    simp only [DeleteVM.finish, h, hu, ne_eq, not_true_eq_false, if_false]
  · intro h hu
    simp only [DeleteVM.finish, h, hu, ne_eq, not_true_eq_false, if_false]

/-- The run of the deferred closure of `DeleteVM`, from what the file system answers. -/
theorem cleanup_run {φ : Type} (os : FileSystem φ) (p : String) (f : φ) :
    (∀ e, (os.Stat p f).1 = some e →
      DeleteVM.cleanup os p f = ([.Stat p (some e)], (os.Stat p f).2)) ∧
    (∀ e, (os.Stat p f).1 = none → (os.Remove p (os.Stat p f).2).1 = some e →
      DeleteVM.cleanup os p f =
        ([.Stat p none, .Remove p (some e),
          .Log ("Failed to delete the disk file " ++ p ++ ": " ++ e)],
          (os.Remove p (os.Stat p f).2).2)) ∧
    ((os.Stat p f).1 = none → (os.Remove p (os.Stat p f).2).1 = none →
      DeleteVM.cleanup os p f =
        ([.Stat p none, .Remove p none], (os.Remove p (os.Stat p f).2).2)) := by
  refine ⟨?_, ?_, ?_⟩
  · intro e h
    simp only [DeleteVM.cleanup, h]
  · intro e h hr
    simp only [DeleteVM.cleanup, h, hr]
  · intro h hr
    simp only [DeleteVM.cleanup, h, hr]

theorem cleanup_countP_isGetState {φ : Type} (os : FileSystem φ) (p : String) (f : φ) :
    (DeleteVM.cleanup os p f).1.countP Event.isGetState = 0 := by
  rw [List.countP_eq_zero]
  intro e he
  have := cleanup_no_gateway os p f e he
  cases e <;> simp_all [Event.isGetState, Event.isGatewayCall]

/-- What follows the state query in `DeleteVM.finish`, with every recorded result being the
gateway's answer: after a state other than `DOMAIN_SHUTOFF` one `Destroy`, then `Undefine`
if the forced stop succeeded; after `DOMAIN_SHUTOFF` the `Undefine` alone; after a failed
query nothing. -/
theorem finish_tied {σ : Type} (lq : LibvirtQemu σ) (vmID diskFile : String) (d : Domain)
    (s : σ) :
    ∃ rest, (DeleteVM.finish lq vmID diskFile d s).trace =
        .GetState d (lq.GetState d s).1 :: rest ∧
      rest.countP Event.isGetState = 0 ∧
      (∀ st, (lq.GetState d s).1 = .ok st → st ≠ DOMAIN_SHUTOFF →
        ∃ rest1, rest = .Destroy d (lq.Destroy d (lq.GetState d s).2).1 :: rest1 ∧
          rest1.countP Event.isDestroy = 0 ∧
          ((lq.Destroy d (lq.GetState d s).2).1 = none →
            rest1 = [.Undefine d (lq.Undefine d (lq.Destroy d (lq.GetState d s).2).2).1]) ∧
          ((lq.Destroy d (lq.GetState d s).2).1 ≠ none → rest1 = [])) ∧
      ((lq.GetState d s).1 = .ok DOMAIN_SHUTOFF →
        rest = [.Undefine d (lq.Undefine d (lq.GetState d s).2).1]) ∧
      (∀ e, (lq.GetState d s).1 = .error e → rest = []) := by
  obtain ⟨h1, h2, h3, h4, h5, h6⟩ := finish_run lq vmID diskFile d s
  rcases hgs : (lq.GetState d s).1 with e | st
  · rw [h1 e hgs]
    exact ⟨[], rfl, rfl, fun st h => (by cases h), fun h => (by cases h), fun _ _ => rfl⟩
  · by_cases hst : st = DOMAIN_SHUTOFF
    · subst hst
      rcases hun : (lq.Undefine d (lq.GetState d s).2).1 with _ | e
      · rw [h6 hgs hun]
        exact ⟨_, rfl, rfl, fun st h hne => absurd (Except.ok.inj h).symm hne, fun _ => rfl,
          fun e h => (by cases h)⟩
      · rw [h5 e hgs hun]
        exact ⟨_, rfl, rfl, fun st h hne => absurd (Except.ok.inj h).symm hne, fun _ => rfl,
          fun e h => (by cases h)⟩
    · rcases hds : (lq.Destroy d (lq.GetState d s).2).1 with _ | e
      · rcases hun : (lq.Undefine d (lq.Destroy d (lq.GetState d s).2).2).1 with _ | e1
        · rw [h4 st hgs hst hds hun]
          exact ⟨_, rfl, rfl, fun st1 h _ => (by cases h; exact ⟨_, rfl, rfl, fun _ => rfl,
            fun h => absurd rfl h⟩), fun h => absurd (Except.ok.inj h) hst,
            fun e h => (by cases h)⟩
        · rw [h3 st e1 hgs hst hds hun]
          exact ⟨_, rfl, rfl, fun st1 h _ => (by cases h; exact ⟨_, rfl, rfl, fun _ => rfl,
            fun h => absurd rfl h⟩), fun h => absurd (Except.ok.inj h) hst,
            fun e h => (by cases h)⟩
      · rw [h2 st e hgs hst hds]
        exact ⟨_, rfl, rfl, fun st1 h _ => (by cases h; exact ⟨_, rfl, rfl,
          fun h => (by cases h), fun _ => rfl⟩), fun h => absurd (Except.ok.inj h) hst,
          fun e h => (by cases h)⟩

/-- After a successful lookup and a completed stop path that leaves the gateway in state `s`,
the body of `DeleteVM` is the calls of the stop path followed by `DeleteVM.finish` in `s`. -/
theorem steps_after_stop {σ : Type} (lq : LibvirtQemu σ) (vmID diskFile : String) (s0 : σ)
    (domain : Domain) (s : σ)
    (hl : (lq.LookupDomainByUUIDString vmID s0).1 = .ok domain)
    (hstop : ((lq.Shutdown domain (lq.LookupDomainByUUIDString vmID s0).2).1 = none ∧
        s = (lq.Shutdown domain (lq.LookupDomainByUUIDString vmID s0).2).2) ∨
      ((lq.Shutdown domain (lq.LookupDomainByUUIDString vmID s0).2).1 ≠ none ∧
        (lq.Destroy domain
          (lq.Shutdown domain (lq.LookupDomainByUUIDString vmID s0).2).2).1 = none ∧
        s = (lq.Destroy domain
          (lq.Shutdown domain (lq.LookupDomainByUUIDString vmID s0).2).2).2)) :
    ∃ pre, DeleteVM.steps lq vmID diskFile s0 =
        (DeleteVM.finish lq vmID diskFile domain s).after pre ∧
      gatewayCalls pre =
        .LookupDomainByUUIDString vmID (.ok domain) ::
          .Shutdown domain (lq.Shutdown domain (lq.LookupDomainByUUIDString vmID s0).2).1 ::
          (if (lq.Shutdown domain (lq.LookupDomainByUUIDString vmID s0).2).1 = none then []
            else [.Destroy domain none]) ∧
      pre.countP Event.isGetState = 0 ∧ pre.countP Event.isUndefine = 0 := by
  rcases hstop with ⟨hsd, hs⟩ | ⟨hsd, hds, hs⟩
  · subst hs
    refine ⟨[.LookupDomainByUUIDString vmID (.ok domain), .Shutdown domain none], ?_, ?_, rfl,
      rfl⟩
    · simp only [DeleteVM.steps, hl, hsd]
    · rw [hsd]
      rfl
  · subst hs
    obtain ⟨e, he⟩ := Option.ne_none_iff_exists'.mp hsd
    refine ⟨[.LookupDomainByUUIDString vmID (.ok domain), .Shutdown domain (some e),
      .Log ("Graceful shutdown failed, forcing stop for VM " ++ vmID), .Destroy domain none],
      ?_, ?_, rfl, rfl⟩
    · simp only [DeleteVM.steps, hl, he, hds]
    · rw [he]
      rfl

/-- The trace of the deferred closure of `DeleteVM`, with every recorded result being the file
system's answer: one `os.Stat`, then one `os.Remove` exactly when the stat succeeded. -/
theorem cleanup_tied {φ : Type} (os : FileSystem φ) (p : String) (f : φ) :
    ∃ post, (DeleteVM.cleanup os p f).1 = .Stat p (os.Stat p f).1 :: post ∧
      post.countP Event.isStat = 0 ∧
      (∀ ev ∈ post, ∀ q, ev.path? = some q → q = p) ∧
      ((os.Stat p f).1 = none →
        post.filter Event.isRemove = [.Remove p (os.Remove p (os.Stat p f).2).1] ∧
        (DeleteVM.cleanup os p f).2 = (os.Remove p (os.Stat p f).2).2) ∧
      ((os.Stat p f).1 ≠ none → post = [] ∧ (DeleteVM.cleanup os p f).2 = (os.Stat p f).2) := by
  obtain ⟨h1, h2, h3⟩ := cleanup_run os p f
  rcases hst : (os.Stat p f).1 with _ | e
  · rcases hrm : (os.Remove p (os.Stat p f).2).1 with _ | e
    · rw [h3 hst hrm]
      exact ⟨_, rfl, rfl, by simp [Event.path?], fun _ => ⟨rfl, rfl⟩, fun h => absurd rfl h⟩
    · rw [h2 e hst hrm]
      exact ⟨_, rfl, rfl, by simp [Event.path?], fun _ => ⟨rfl, rfl⟩, fun h => absurd rfl h⟩
  · rw [h1 e hst]
    exact ⟨[], rfl, rfl, by simp, fun h => (by cases h), fun _ => ⟨rfl, rfl⟩⟩

/-! ## Theorems -/

/-- C1: when the clone, the definition and the start all succeed, `createVM` returns no error
and a response with status "running", the request's VCPUs, Memory and DiskSize, and the disk
file `/var/lib/libvirt/images/<VMID>.qcow2` of the identifier minted for this response. -/
theorem createVM_success {σ : Type} (request : VMCreationRequest) (lq : LibvirtQemu σ) (s0 : σ)
    (rng0 : Entropy)
    (h : ∀ e ∈ (createVM request lq s0 rng0).trace, e.succeeded = true) :
    ∃ r, (createVM request lq s0 rng0).resp = some r ∧ (createVM request lq s0 rng0).err = none ∧
      r.Status = "running" ∧ r.VCPUs = request.VCPUs ∧ r.Memory = request.Memory ∧
      r.DiskSize = request.DiskSize ∧ r.VMID = (rng0 0).String ∧
      r.DiskFile = "/var/lib/libvirt/images/" ++ r.VMID ++ ".qcow2" ∧
      Contains r.DiskFile r.VMID := by
  unfold createVM at h ⊢
  simp only [] at h ⊢
  split at h
  · simp_all [Event.succeeded]
  · split at h
    · simp_all [Event.succeeded]
    · split at h
      · simp_all [Event.succeeded]
      · simp_all [Event.succeeded, diskPathOf, uuidNew]
        exact contains_mid _ _ _

/-- C1 at the request of `TestCreateVM` on a gateway where every call succeeds. -/
theorem createVM_success_witness :
    (∀ e ∈ (createVM testRequest okScript.gateway () testEntropy).trace, e.succeeded = true) ∧
    ∃ r, (createVM testRequest okScript.gateway () testEntropy).resp = some r ∧
      (createVM testRequest okScript.gateway () testEntropy).err = none ∧
      r.Status = "running" ∧ r.VCPUs = 2 ∧ r.Memory = 4096 ∧ r.DiskSize = 20 ∧
      r.VMID = (testEntropy 0).String ∧
      r.DiskFile = "/var/lib/libvirt/images/" ++ r.VMID ++ ".qcow2" ∧
      Contains r.DiskFile r.VMID :=
  ⟨by decide, createVM_success testRequest okScript.gateway () testEntropy (by decide)⟩

/-- C2 as stated fails: on a gateway whose lookup fails with a `*NotFoundError` for the
identifier "other", which is not a libvirt error of code `ERR_NO_DOMAIN`, `DeleteVM` and
`getVMstatus` return that error unchanged, and it is a `NotFoundError`, for an identifier
other than the requested one. -/
theorem lookup_failure_counterexample :
    (foreignNotFound.gateway.LookupDomainByUUIDString testID ()).1 =
      .error (.notFound { ID := "other" }) ∧
    (¬ ∃ er, GatewayError.notFound { ID := "other" } = .libvirt er ∧ er.Code = ERR_NO_DOMAIN) ∧
    (DeleteVM foreignNotFound.gateway okFS testID () ()).err =
      some (.notFound { ID := "other" }) ∧
    (getVMstatus foreignNotFound.gateway testID ()).err = some (.notFound { ID := "other" }) ∧
    GoError.isNotFound (.notFound { ID := "other" }) = true ∧
    "other" ≠ testID :=
  ⟨rfl, (fun ⟨_, h, _⟩ => (by cases h)), rfl, rfl, rfl, by decide⟩

/-- C2, amended: in `DeleteVM` and in `getVMstatus`, a lookup that fails with a libvirt error
of code `ERR_NO_DOMAIN` gives a nil response, a `NotFoundError` carrying the requested
identifier, and no gateway call after the lookup; a lookup that fails with any other error
gives a nil response and that same error, unchanged, with no gateway call after the lookup,
and the returned error is a `NotFoundError` only when the gateway's own error was one. -/
theorem lookup_failure {σ φ : Type} (lq : LibvirtQemu σ) (os : FileSystem φ) (vmID : String)
    (s0 : σ) (f0 : φ) (err : GatewayError)
    (h : (lq.LookupDomainByUUIDString vmID s0).1 = .error err) :
    ((∃ er, err = .libvirt er ∧ er.Code = ERR_NO_DOMAIN) →
      (DeleteVM lq os vmID s0 f0).resp = none ∧
      (DeleteVM lq os vmID s0 f0).err = some (.notFound { ID := vmID }) ∧
      gatewayCalls (DeleteVM lq os vmID s0 f0).trace =
        [.LookupDomainByUUIDString vmID (.error err)] ∧
      (getVMstatus lq vmID s0).resp = none ∧
      (getVMstatus lq vmID s0).err = some (.notFound { ID := vmID }) ∧
      (getVMstatus lq vmID s0).trace = [.LookupDomainByUUIDString vmID (.error err)]) ∧
    ((¬ ∃ er, err = .libvirt er ∧ er.Code = ERR_NO_DOMAIN) →
      (DeleteVM lq os vmID s0 f0).resp = none ∧
      (DeleteVM lq os vmID s0 f0).err = some err.toGo ∧
      gatewayCalls (DeleteVM lq os vmID s0 f0).trace =
        [.LookupDomainByUUIDString vmID (.error err)] ∧
      (getVMstatus lq vmID s0).resp = none ∧
      (getVMstatus lq vmID s0).err = some err.toGo ∧
      (getVMstatus lq vmID s0).trace = [.LookupDomainByUUIDString vmID (.error err)] ∧
      (err.toGo.isNotFound = true ↔ ∃ e, err = .notFound e)) := by
  refine ⟨?_, ?_⟩
  · rintro ⟨er, rfl, hc⟩
    rw [gatewayCalls_DeleteVM]
    simp [DeleteVM, DeleteVM.steps, getVMstatus, h, hc, NewNotFoundError, gatewayCalls,
      Event.isGatewayCall]
  · intro hn
    rw [gatewayCalls_DeleteVM]
    cases err with
    | libvirt er =>
      have hc : er.Code ≠ ERR_NO_DOMAIN := fun hc => hn ⟨er, rfl, hc⟩
      simp [DeleteVM, DeleteVM.steps, getVMstatus, h, hc, GatewayError.toGo, GoError.isNotFound,
        gatewayCalls, Event.isGatewayCall]
    | errorString msg =>
      simp [DeleteVM, DeleteVM.steps, getVMstatus, h, GatewayError.toGo, GoError.isNotFound,
        gatewayCalls, Event.isGatewayCall]
    | notFound e =>
      simp [DeleteVM, DeleteVM.steps, getVMstatus, h, GatewayError.toGo, GoError.isNotFound,
        gatewayCalls, Event.isGatewayCall]

/-- C2, amended, at a gateway whose lookup reports "no such domain". -/
theorem lookup_failure_witness :
    ({ okScript with lookup := .error (.libvirt ⟨42, 10, "Domain not found", 2⟩) }.gateway.LookupDomainByUUIDString
        testID ()).1 = .error (.libvirt ⟨42, 10, "Domain not found", 2⟩) ∧
    (DeleteVM { okScript with lookup := .error (.libvirt ⟨42, 10, "Domain not found", 2⟩) }.gateway
        okFS testID () ()).err = some (.notFound { ID := testID }) :=
  ⟨rfl, ((lookup_failure
    { okScript with lookup := .error (.libvirt ⟨42, 10, "Domain not found", 2⟩) }.gateway okFS
    testID () () (.libvirt ⟨42, 10, "Domain not found", 2⟩) rfl).1 ⟨_, rfl, rfl⟩).2.1⟩

/-- C3: after a successful lookup and `GetName`, for every state `GetState` returns,
`getVMstatus` answers with status "running" for `DOMAIN_RUNNING`, "stopped" for
`DOMAIN_SHUTOFF`, "paused" for `DOMAIN_PAUSED` and "unknown" for every other state; the
status is always one of these four strings. -/
theorem getVMstatus_status {σ : Type} (lq : LibvirtQemu σ) (vmID : String) (s0 : σ)
    (domain : Domain) (name : String) (state : DomainState)
    (hl : (lq.LookupDomainByUUIDString vmID s0).1 = .ok domain)
    (hn : (lq.GetName domain (lq.LookupDomainByUUIDString vmID s0).2).1 = .ok name)
    (hs : (lq.GetState domain
      (lq.GetName domain (lq.LookupDomainByUUIDString vmID s0).2).2).1 = .ok state) :
    ∃ r, (getVMstatus lq vmID s0).resp = some r ∧ (getVMstatus lq vmID s0).err = none ∧
      (state = DOMAIN_RUNNING → r.Status = "running") ∧
      (state = DOMAIN_SHUTOFF → r.Status = "stopped") ∧
      (state = DOMAIN_PAUSED → r.Status = "paused") ∧
      (state ≠ DOMAIN_RUNNING → state ≠ DOMAIN_SHUTOFF → state ≠ DOMAIN_PAUSED →
        r.Status = "unknown") ∧
      (r.Status = "running" ∨ r.Status = "stopped" ∨ r.Status = "paused" ∨
        r.Status = "unknown") := by
  have hr : (getVMstatus lq vmID s0).resp =
      some ⟨vmID, name, statusOf state, "VM " ++ name ++ " is " ++ statusOf state⟩ := by
    simp only [getVMstatus, hl, hn, hs]
  have he : (getVMstatus lq vmID s0).err = none := by simp only [getVMstatus, hl, hn, hs]
  refine ⟨_, hr, he, ?_, ?_, ?_, ?_, ?_⟩
  · intro h; simp [statusOf, h]
  · intro h; subst h; simp [statusOf, DOMAIN_RUNNING, DOMAIN_SHUTOFF]
  · intro h; subst h; simp [statusOf, DOMAIN_RUNNING, DOMAIN_SHUTOFF, DOMAIN_PAUSED]
  · intro h1 h2 h3; simp [statusOf, h1, h2, h3]
  · simp only [statusOf]
    split_ifs <;> simp

/-- C3 at a domain in a state outside the three recognised ones (`DOMAIN_CRASHED`, 6). -/
theorem getVMstatus_status_witness :
    ({ okScript with getState := .ok 6 }.gateway.LookupDomainByUUIDString testID ()).1 = .ok 7 ∧
    ∃ r, (getVMstatus { okScript with getState := .ok 6 }.gateway testID ()).resp = some r ∧
      r.Status = "unknown" := by
  obtain ⟨r, h1, _, _, _, _, h5, _⟩ :=
    getVMstatus_status { okScript with getState := .ok 6 }.gateway testID () 7 "testVM" 6
      rfl rfl rfl
  exact ⟨rfl, r, h1, h5 (by decide) (by decide) (by decide)⟩

/-- C4: when the lookup succeeds, `Shutdown` succeeds, `GetState` returns `DOMAIN_SHUTOFF`
and `Undefine` succeeds, `DeleteVM` calls `Undefine` exactly once and `Destroy` never, and
returns no error and the response with the identifier, status "deleted", message
"VM successfully deleted" and disk file `/var/lib/libvirt/images/<id>.qcow2`. -/
theorem DeleteVM_graceful {σ φ : Type} (lq : LibvirtQemu σ) (os : FileSystem φ) (vmID : String)
    (s0 : σ) (f0 : φ) (domain : Domain)
    (hl : (lq.LookupDomainByUUIDString vmID s0).1 = .ok domain)
    (hsd : (lq.Shutdown domain (lq.LookupDomainByUUIDString vmID s0).2).1 = none)
    (hgs : (lq.GetState domain
      (lq.Shutdown domain (lq.LookupDomainByUUIDString vmID s0).2).2).1 = .ok DOMAIN_SHUTOFF)
    (hun : (lq.Undefine domain (lq.GetState domain
      (lq.Shutdown domain (lq.LookupDomainByUUIDString vmID s0).2).2).2).1 = none) :
    (DeleteVM lq os vmID s0 f0).trace.countP Event.isUndefine = 1 ∧
    (DeleteVM lq os vmID s0 f0).trace.countP Event.isDestroy = 0 ∧
    (DeleteVM lq os vmID s0 f0).err = none ∧
    (DeleteVM lq os vmID s0 f0).resp =
      some { VMID := vmID, Status := "deleted", Message := "VM successfully deleted",
             DiskFile := "/var/lib/libvirt/images/" ++ vmID ++ ".qcow2" } := by
  simp [DeleteVM, DeleteVM.steps, DeleteVM.finish, Run.after, hl, hsd, hgs, hun,
    cleanup_countP_isUndefine, cleanup_countP_isDestroy, List.countP_cons, Event.isUndefine,
    Event.isDestroy]
  rfl

/-- C4 at the identifier and gateway script of `TestDeleteVM`. -/
theorem DeleteVM_graceful_witness :
    (okScript.gateway.LookupDomainByUUIDString testID ()).1 = .ok 7 ∧
    (DeleteVM okScript.gateway okFS testID () ()).trace.countP Event.isUndefine = 1 ∧
    (DeleteVM okScript.gateway okFS testID () ()).trace.countP Event.isDestroy = 0 ∧
    (DeleteVM okScript.gateway okFS testID () ()).err = none ∧
    (DeleteVM okScript.gateway okFS testID () ()).resp =
      some { VMID := testID, Status := "deleted", Message := "VM successfully deleted",
             DiskFile := "/var/lib/libvirt/images/" ++ testID ++ ".qcow2" } :=
  ⟨rfl, DeleteVM_graceful okScript.gateway okFS testID () () 7 rfl rfl rfl rfl⟩


/-- C5 as stated fails: on a gateway where the lookup succeeds, `Shutdown` fails and `Destroy`
and `Undefine` succeed, but the state query fails, `DeleteVM` returns a nil response and the
error "failed to get VM state: ...". -/
theorem DeleteVM_shutdown_failure_counterexample :
    (stateQueryFails.gateway.LookupDomainByUUIDString testID ()).1 = .ok 7 ∧
    (stateQueryFails.gateway.Shutdown 7 ()).1 ≠ none ∧
    (∀ d, (stateQueryFails.gateway.Destroy d ()).1 = none) ∧
    (∀ d, (stateQueryFails.gateway.Undefine d ()).1 = none) ∧
    (DeleteVM stateQueryFails.gateway okFS testID () ()).resp = none ∧
    (DeleteVM stateQueryFails.gateway okFS testID () ()).err =
      some (.errorString
        "failed to get VM state: failed to get the domain state: connection lost") :=
  ⟨rfl, by decide, fun _ => rfl, fun _ => rfl, rfl, by decide⟩

/-- C5, amended: when the lookup succeeds and `Shutdown` fails, and every `Destroy`,
`GetState` and `Undefine` call of the run succeeds, `DeleteVM` reports success: no error and
status "deleted".  And whenever `DeleteVM` returns an error, a gateway call other than
`Shutdown` has failed in the run, so a failed graceful stop alone never causes the error. -/
theorem DeleteVM_shutdown_failure {σ φ : Type} (lq : LibvirtQemu σ) (os : FileSystem φ)
    (vmID : String) (s0 : σ) (f0 : φ) :
    (∀ domain err, (lq.LookupDomainByUUIDString vmID s0).1 = .ok domain →
      (lq.Shutdown domain (lq.LookupDomainByUUIDString vmID s0).2).1 = some err →
      (∀ ev ∈ (DeleteVM lq os vmID s0 f0).trace,
        (ev.isDestroy || ev.isGetState || ev.isUndefine) = true → ev.succeeded = true) →
      (DeleteVM lq os vmID s0 f0).err = none ∧
      ∃ r, (DeleteVM lq os vmID s0 f0).resp = some r ∧ r.Status = "deleted") ∧
    ((DeleteVM lq os vmID s0 f0).err ≠ none →
      ∃ ev ∈ (DeleteVM lq os vmID s0 f0).trace,
        ev.isGatewayCall = true ∧ ev.isShutdown = false ∧ ev.succeeded = false) := by
  constructor
  · intro domain err hl hsd h
    have h1 : ∀ ev ∈ (DeleteVM.steps lq vmID (diskPathOf vmID) s0).trace,
        (ev.isDestroy || ev.isGetState || ev.isUndefine) = true → ev.succeeded = true :=
      fun ev hev => h ev (List.mem_append_left _ hev)
    show (DeleteVM.steps lq vmID (diskPathOf vmID) s0).err = none ∧
      ∃ r, (DeleteVM.steps lq vmID (diskPathOf vmID) s0).resp = some r ∧ r.Status = "deleted"
    rcases steps_cases lq vmID (diskPathOf vmID) s0 with
      ⟨e, g, hle, -⟩ | ⟨d, e, e1, -, -, -, -, -, ht⟩ | ⟨d, e, s, -, -, heq⟩ | ⟨d, s, hld, hs, -⟩
    · rw [hl] at hle; cases hle
    · have := h1 (.Destroy d (some e1)) (by simp [ht]) rfl
      simp [Event.succeeded] at this
    · rw [heq] at h1 ⊢
      rcases finish_cases lq vmID (diskPathOf vmID) d s with
        ⟨e', hr, he, ht⟩ | ⟨st, e', -, hr, he, ht⟩ | ⟨st, e', -, hr, he, ht⟩ |
        ⟨st, -, hr, he, ht⟩ | ⟨e', hr, he, ht⟩ | ⟨hr, he, ht⟩ <;>
      simp_all [Run.after, Event.succeeded, Event.isDestroy, Event.isGetState, Event.isUndefine]
    · rw [hl] at hld; cases hld
      rw [hsd] at hs; cases hs
  · intro herr
    have herr1 : (DeleteVM.steps lq vmID (diskPathOf vmID) s0).err ≠ none := herr
    suffices hs : ∃ ev ∈ (DeleteVM.steps lq vmID (diskPathOf vmID) s0).trace,
        ev.isGatewayCall = true ∧ ev.isShutdown = false ∧ ev.succeeded = false by
      obtain ⟨ev, hev, hp⟩ := hs
      exact ⟨ev, List.mem_append_left _ hev, hp⟩
    rcases steps_cases lq vmID (diskPathOf vmID) s0 with
      ⟨e, g, -, -, -, ht⟩ | ⟨d, e, e1, -, -, -, -, -, ht⟩ | ⟨d, e, s, -, -, heq⟩ | ⟨d, s, -, -, heq⟩
    · exact ⟨.LookupDomainByUUIDString vmID (.error e), by simp [ht], rfl, rfl, rfl⟩
    · exact ⟨.Destroy d (some e1), by simp [ht], rfl, rfl, rfl⟩
    · rw [heq] at herr1 ⊢
      rcases finish_cases lq vmID (diskPathOf vmID) d s with
        ⟨e', hr, he, ht⟩ | ⟨st, e', -, hr, he, ht⟩ | ⟨st, e', -, hr, he, ht⟩ |
        ⟨st, -, hr, he, ht⟩ | ⟨e', hr, he, ht⟩ | ⟨hr, he, ht⟩ <;>
      simp_all [Run.after, Event.succeeded, Event.isGatewayCall, Event.isShutdown]
    · rw [heq] at herr1 ⊢
      rcases finish_cases lq vmID (diskPathOf vmID) d s with
        ⟨e', hr, he, ht⟩ | ⟨st, e', -, hr, he, ht⟩ | ⟨st, e', -, hr, he, ht⟩ |
        ⟨st, -, hr, he, ht⟩ | ⟨e', hr, he, ht⟩ | ⟨hr, he, ht⟩ <;>
      simp_all [Run.after, Event.succeeded, Event.isGatewayCall, Event.isShutdown]

/-- C5, amended, at a gateway where only the graceful stop fails and the domain still reads
as running afterwards. -/
theorem DeleteVM_shutdown_failure_witness :
    (shutdownFails.gateway.LookupDomainByUUIDString testID ()).1 = .ok 7 ∧
    (shutdownFails.gateway.Shutdown 7 ()).1 =
      some (.errorString "failed to gracefully shut down the domain: timeout") ∧
    (DeleteVM shutdownFails.gateway deniedFS testID () ()).err = none ∧
    ∃ r, (DeleteVM shutdownFails.gateway deniedFS testID () ()).resp = some r ∧
      r.Status = "deleted" :=
  ⟨rfl, rfl, (DeleteVM_shutdown_failure shutdownFails.gateway deniedFS testID () ()).1 7 _ rfl rfl
    (by decide)⟩

/-- C6: the response and the error `DeleteVM` returns are the same on every file system, be
the disk file absent, removed, or impossible to remove; the gateway calls and the gateway
state are the same too.  In particular, when every gateway call of the run succeeds, the
status is "deleted" and there is no error, whatever the file system does. -/
theorem DeleteVM_cleanup_independent {σ φ ψ : Type} (lq : LibvirtQemu σ) (vmID : String)
    (s0 : σ) (os1 : FileSystem φ) (f1 : φ) (os2 : FileSystem ψ) (f2 : ψ) :
    (DeleteVM lq os1 vmID s0 f1).resp = (DeleteVM lq os2 vmID s0 f2).resp ∧
    (DeleteVM lq os1 vmID s0 f1).err = (DeleteVM lq os2 vmID s0 f2).err ∧
    gatewayCalls (DeleteVM lq os1 vmID s0 f1).trace =
      gatewayCalls (DeleteVM lq os2 vmID s0 f2).trace ∧
    ((∀ ev ∈ gatewayCalls (DeleteVM lq os1 vmID s0 f1).trace, ev.succeeded = true) →
      (DeleteVM lq os1 vmID s0 f1).err = none ∧
      ∃ r, (DeleteVM lq os1 vmID s0 f1).resp = some r ∧ r.Status = "deleted") := by
  refine ⟨rfl, rfl, ?_, ?_⟩
  · rw [gatewayCalls_DeleteVM, gatewayCalls_DeleteVM]
  · rw [gatewayCalls_DeleteVM]
    intro h
    show (DeleteVM.steps lq vmID (diskPathOf vmID) s0).err = none ∧
      ∃ r, (DeleteVM.steps lq vmID (diskPathOf vmID) s0).resp = some r ∧ r.Status = "deleted"
    rcases steps_cases lq vmID (diskPathOf vmID) s0 with
      ⟨e, g, -, -, -, ht⟩ | ⟨d, e, e1, -, -, -, -, -, ht⟩ | ⟨d, e, s, -, -, heq⟩ | ⟨d, s, -, -, heq⟩
    · simp [ht, gatewayCalls, Event.isGatewayCall, Event.succeeded] at h
    · simp [ht, gatewayCalls, Event.isGatewayCall, Event.succeeded] at h
    · simp [heq, Run.after, gatewayCalls, Event.isGatewayCall, Event.succeeded] at h
    · rw [heq] at h ⊢
      rcases finish_cases lq vmID (diskPathOf vmID) d s with
        ⟨e', hr, he, ht⟩ | ⟨st, e', -, hr, he, ht⟩ | ⟨st, e', -, hr, he, ht⟩ |
        ⟨st, -, hr, he, ht⟩ | ⟨e', hr, he, ht⟩ | ⟨hr, he, ht⟩ <;>
      simp_all [Run.after, gatewayCalls, Event.succeeded, Event.isGatewayCall]

/-- C6 on the gateway of `TestDeleteVM`: with a disk file that cannot be removed the result
is that of a run where the file is absent, and the status is "deleted". -/
theorem DeleteVM_cleanup_independent_witness :
    (∀ ev ∈ gatewayCalls (DeleteVM okScript.gateway deniedFS testID () ()).trace,
      ev.succeeded = true) ∧
    (DeleteVM okScript.gateway deniedFS testID () ()).resp =
      (DeleteVM okScript.gateway absentFS testID () ()).resp ∧
    (DeleteVM okScript.gateway deniedFS testID () ()).err = none ∧
    ∃ r, (DeleteVM okScript.gateway deniedFS testID () ()).resp = some r ∧
      r.Status = "deleted" :=
  ⟨by decide,
    (DeleteVM_cleanup_independent okScript.gateway testID () deniedFS () absentFS ()).1,
    (DeleteVM_cleanup_independent okScript.gateway testID () deniedFS () absentFS ()).2.2.2
      (by decide)⟩

/-- C7: if a call of `Undefine` in the run fails, `DeleteVM` returns a nil response and an
error that is not a `NotFoundError`; and if `DeleteVM` returns a response with status
"deleted", the run holds exactly one call of `Undefine`, and that call succeeded. -/
theorem DeleteVM_undefine_fatal {σ φ : Type} (lq : LibvirtQemu σ) (os : FileSystem φ)
    (vmID : String) (s0 : σ) (f0 : φ) :
    (∀ d e, Event.Undefine d (some e) ∈ (DeleteVM lq os vmID s0 f0).trace →
      (DeleteVM lq os vmID s0 f0).resp = none ∧
      ∃ g, (DeleteVM lq os vmID s0 f0).err = some g ∧ g.isNotFound = false) ∧
    (∀ r, (DeleteVM lq os vmID s0 f0).resp = some r → r.Status = "deleted" →
      ∃ d, (DeleteVM lq os vmID s0 f0).trace.filter Event.isUndefine = [.Undefine d none]) := by
  have hc : ∀ d r, Event.Undefine d r ∉ (DeleteVM.cleanup os (diskPathOf vmID) f0).1 :=
    fun d r hm => by
      have := cleanup_no_gateway os (diskPathOf vmID) f0 _ hm
      simp [Event.isGatewayCall] at this
  have hf : (DeleteVM.cleanup os (diskPathOf vmID) f0).1.filter Event.isUndefine = [] := by
    rw [List.filter_eq_nil_iff]
    intro ev hev
    have := cleanup_no_gateway os (diskPathOf vmID) f0 ev hev
    cases ev <;> simp_all [Event.isUndefine, Event.isGatewayCall]
  constructor
  · intro d0 e0 hm
    have hm1 : Event.Undefine d0 (some e0) ∈ (DeleteVM.steps lq vmID (diskPathOf vmID) s0).trace := by
      rcases List.mem_append.mp hm with h | h
      · exact h
      · exact absurd h (hc d0 _)
    show (DeleteVM.steps lq vmID (diskPathOf vmID) s0).resp = none ∧
      ∃ g, (DeleteVM.steps lq vmID (diskPathOf vmID) s0).err = some g ∧ g.isNotFound = false
    rcases steps_cases lq vmID (diskPathOf vmID) s0 with
      ⟨e, g, -, -, -, ht⟩ | ⟨d, e, e1, -, -, -, -, -, ht⟩ | ⟨d, e, s, -, -, heq⟩ | ⟨d, s, -, -, heq⟩
    · simp [ht] at hm1
    · simp [ht] at hm1
    · rw [heq] at hm1 ⊢
      rcases finish_cases lq vmID (diskPathOf vmID) d s with
        ⟨e', hr, he, ht⟩ | ⟨st, e', -, hr, he, ht⟩ | ⟨st, e', -, hr, he, ht⟩ |
        ⟨st, -, hr, he, ht⟩ | ⟨e', hr, he, ht⟩ | ⟨hr, he, ht⟩ <;>
      simp_all [Run.after, Errorf, GoError.isNotFound]
    · rw [heq] at hm1 ⊢
      rcases finish_cases lq vmID (diskPathOf vmID) d s with
        ⟨e', hr, he, ht⟩ | ⟨st, e', -, hr, he, ht⟩ | ⟨st, e', -, hr, he, ht⟩ |
        ⟨st, -, hr, he, ht⟩ | ⟨e', hr, he, ht⟩ | ⟨hr, he, ht⟩ <;>
      simp_all [Run.after, Errorf, GoError.isNotFound]
  · intro r hr0 _
    have hr1 : (DeleteVM.steps lq vmID (diskPathOf vmID) s0).resp = some r := hr0
    show ∃ d, ((DeleteVM.steps lq vmID (diskPathOf vmID) s0).trace ++
      (DeleteVM.cleanup os (diskPathOf vmID) f0).1).filter Event.isUndefine = [.Undefine d none]
    rw [List.filter_append, hf, List.append_nil]
    rcases steps_cases lq vmID (diskPathOf vmID) s0 with
      ⟨e, g, -, hn, -, -⟩ | ⟨d, e, e1, -, -, -, hn, -, -⟩ | ⟨d, e, s, -, -, heq⟩ | ⟨d, s, -, -, heq⟩
    · rw [hn] at hr1; cases hr1
    · rw [hn] at hr1; cases hr1
    · rw [heq] at hr1 ⊢
      refine ⟨d, ?_⟩
      rcases finish_cases lq vmID (diskPathOf vmID) d s with
        ⟨e', hr, he, ht⟩ | ⟨st, e', -, hr, he, ht⟩ | ⟨st, e', -, hr, he, ht⟩ |
        ⟨st, -, hr, he, ht⟩ | ⟨e', hr, he, ht⟩ | ⟨hr, he, ht⟩ <;>
      simp_all [Run.after, List.filter_cons, Event.isUndefine]
    · rw [heq] at hr1 ⊢
      refine ⟨d, ?_⟩
      rcases finish_cases lq vmID (diskPathOf vmID) d s with
        ⟨e', hr, he, ht⟩ | ⟨st, e', -, hr, he, ht⟩ | ⟨st, e', -, hr, he, ht⟩ |
        ⟨st, -, hr, he, ht⟩ | ⟨e', hr, he, ht⟩ | ⟨hr, he, ht⟩ <;>
      simp_all [Run.after, List.filter_cons, Event.isUndefine]

/-- C7 on a gateway where only `Undefine` fails: the call is in the trace, and the result is
a nil response with an error that is not a `NotFoundError`. -/
theorem DeleteVM_undefine_fatal_witness :
    Event.Undefine 7 (some (.errorString "failed to undefine the domain: busy")) ∈
      (DeleteVM undefineFails.gateway okFS testID () ()).trace ∧
    (DeleteVM undefineFails.gateway okFS testID () ()).resp = none ∧
    ∃ g, (DeleteVM undefineFails.gateway okFS testID () ()).err = some g ∧
      g.isNotFound = false :=
  have hm : Event.Undefine 7 (some (.errorString "failed to undefine the domain: busy")) ∈
      (DeleteVM undefineFails.gateway okFS testID () ()).trace := by
    simp [DeleteVM, DeleteVM.steps, DeleteVM.finish, DeleteVM.cleanup, Run.after, undefineFails,
      okScript, Script.gateway, okFS]
  ⟨hm, (DeleteVM_undefine_fatal undefineFails.gateway okFS testID () ()).1 7 _ hm⟩

/-- C8: once the lookup has succeeded and a stop path has completed and left the gateway in
state `s` (`Shutdown` succeeded, or `Shutdown` failed and `Destroy` succeeded), `DeleteVM`
asks the gateway for the state exactly once, in state `s`, after the calls of the stop path
and before any `Undefine`.  If the gateway answers a state other than `DOMAIN_SHUTOFF`, the
very next step is one more `Destroy` on the gateway, no further `Destroy` follows, and
`Undefine` is called after it exactly when that `Destroy` succeeded; if the gateway answers
`DOMAIN_SHUTOFF`, no `Destroy` follows the query and the next step is `Undefine`; if the
query fails, no gateway call follows it. -/
theorem DeleteVM_state_query {σ φ : Type} (lq : LibvirtQemu σ) (os : FileSystem φ)
    (vmID : String) (s0 : σ) (f0 : φ) (domain : Domain) (s : σ)
    (hl : (lq.LookupDomainByUUIDString vmID s0).1 = .ok domain)
    (hstop : ((lq.Shutdown domain (lq.LookupDomainByUUIDString vmID s0).2).1 = none ∧
        s = (lq.Shutdown domain (lq.LookupDomainByUUIDString vmID s0).2).2) ∨
      ((lq.Shutdown domain (lq.LookupDomainByUUIDString vmID s0).2).1 ≠ none ∧
        (lq.Destroy domain
          (lq.Shutdown domain (lq.LookupDomainByUUIDString vmID s0).2).2).1 = none ∧
        s = (lq.Destroy domain
          (lq.Shutdown domain (lq.LookupDomainByUUIDString vmID s0).2).2).2)) :
    ∃ pre post, (DeleteVM lq os vmID s0 f0).trace =
        pre ++ [.GetState domain (lq.GetState domain s).1] ++ post ∧
      gatewayCalls pre =
        .LookupDomainByUUIDString vmID (.ok domain) ::
          .Shutdown domain (lq.Shutdown domain (lq.LookupDomainByUUIDString vmID s0).2).1 ::
          (if (lq.Shutdown domain (lq.LookupDomainByUUIDString vmID s0).2).1 = none then []
            else [.Destroy domain none]) ∧
      pre.countP Event.isGetState = 0 ∧ pre.countP Event.isUndefine = 0 ∧
      post.countP Event.isGetState = 0 ∧
      (∀ st, (lq.GetState domain s).1 = .ok st → st ≠ DOMAIN_SHUTOFF →
        ∃ post1, post = .Destroy domain (lq.Destroy domain (lq.GetState domain s).2).1 :: post1 ∧
          post1.countP Event.isDestroy = 0 ∧
          ((lq.Destroy domain (lq.GetState domain s).2).1 = none →
            ∃ post2, post1 = .Undefine domain
                (lq.Undefine domain (lq.Destroy domain (lq.GetState domain s).2).2).1 :: post2 ∧
              gatewayCalls post2 = []) ∧
          ((lq.Destroy domain (lq.GetState domain s).2).1 ≠ none → gatewayCalls post1 = [])) ∧
      ((lq.GetState domain s).1 = .ok DOMAIN_SHUTOFF →
        post.countP Event.isDestroy = 0 ∧
        ∃ post2, post = .Undefine domain (lq.Undefine domain (lq.GetState domain s).2).1 ::
            post2 ∧
          gatewayCalls post2 = []) ∧
      (∀ e, (lq.GetState domain s).1 = .error e → gatewayCalls post = []) := by
  have hG := cleanup_countP_isGetState os (diskPathOf vmID) f0
  have hD := cleanup_countP_isDestroy os (diskPathOf vmID) f0
  have hC := gatewayCalls_cleanup os (diskPathOf vmID) f0
  have key : ∃ pre, gatewayCalls pre =
        .LookupDomainByUUIDString vmID (.ok domain) ::
          .Shutdown domain (lq.Shutdown domain (lq.LookupDomainByUUIDString vmID s0).2).1 ::
          (if (lq.Shutdown domain (lq.LookupDomainByUUIDString vmID s0).2).1 = none then []
            else [.Destroy domain none]) ∧
      pre.countP Event.isGetState = 0 ∧ pre.countP Event.isUndefine = 0 ∧
      (DeleteVM.steps lq vmID (diskPathOf vmID) s0).trace =
        pre ++ (DeleteVM.finish lq vmID (diskPathOf vmID) domain s).trace := by
    rcases hstop with ⟨hsd, hs⟩ | ⟨hsd, hds, hs⟩
    · subst hs
      refine ⟨[.LookupDomainByUUIDString vmID (.ok domain), .Shutdown domain none], ?_, rfl, rfl,
        ?_⟩
      · rw [hsd]
        rfl
      · simp only [DeleteVM.steps, hl, hsd, Run.after]
    · subst hs
      obtain ⟨e, he⟩ := Option.ne_none_iff_exists'.mp hsd
      refine ⟨[.LookupDomainByUUIDString vmID (.ok domain), .Shutdown domain (some e),
        .Log ("Graceful shutdown failed, forcing stop for VM " ++ vmID), .Destroy domain none],
        ?_, rfl, rfl, ?_⟩
      · rw [he]
        rfl
      · simp only [DeleteVM.steps, hl, he, hds, Run.after]
  obtain ⟨pre, hp0, hp1, hp2, ht⟩ := key
  obtain ⟨rest, hf, hr1, hr2, hr3, hr4⟩ := finish_tied lq vmID (diskPathOf vmID) domain s
  refine ⟨pre, rest ++ (DeleteVM.cleanup os (diskPathOf vmID) f0).1, ?_, hp0, hp1, hp2, ?_, ?_,
    ?_, ?_⟩
  · show (DeleteVM.steps lq vmID (diskPathOf vmID) s0).trace ++
      (DeleteVM.cleanup os (diskPathOf vmID) f0).1 = _
    rw [ht, hf]
    simp
  · rw [List.countP_append, hr1, hG]
  · intro st hst hne
    obtain ⟨rest1, h1, h2, h3, h4⟩ := hr2 st hst hne
    refine ⟨rest1 ++ (DeleteVM.cleanup os (diskPathOf vmID) f0).1, by rw [h1]; rfl,
      by rw [List.countP_append, h2, hD], ?_, ?_⟩
    · intro hd
      exact ⟨(DeleteVM.cleanup os (diskPathOf vmID) f0).1, by rw [h3 hd]; rfl, hC⟩
    · intro hd
      rw [h4 hd]
      exact hC
  · intro hst
    rw [hr3 hst]
    exact ⟨by rw [List.countP_append, hD]; rfl,
      (DeleteVM.cleanup os (diskPathOf vmID) f0).1, rfl, hC⟩
  · intro e he
    rw [hr4 e he]
    exact hC

/-- C8 on a gateway where the graceful stop fails, the forced stop succeeds and the domain
still reads as running: one state query, followed at once by one more `Destroy` and then by
`Undefine`. -/
theorem DeleteVM_state_query_witness :
    (shutdownFails.gateway.LookupDomainByUUIDString testID ()).1 = .ok 7 ∧
    (shutdownFails.gateway.Shutdown 7 ()).1 ≠ none ∧
    (shutdownFails.gateway.Destroy 7 ()).1 = none ∧
    ∃ pre post, (DeleteVM shutdownFails.gateway okFS testID () ()).trace =
        pre ++ [.GetState 7 (.ok DOMAIN_RUNNING)] ++ post ∧
      gatewayCalls pre =
        [.LookupDomainByUUIDString testID (.ok 7),
         .Shutdown 7 (some (.errorString "failed to gracefully shut down the domain: timeout")),
         .Destroy 7 none] ∧
      ∃ post2, post = .Destroy 7 none :: .Undefine 7 none :: post2 ∧ gatewayCalls post2 = [] := by
  obtain ⟨pre, post, h1, h2, -, -, -, h6, -, -⟩ :=
    DeleteVM_state_query shutdownFails.gateway okFS testID () () 7 () rfl
      (Or.inr ⟨by decide, rfl, rfl⟩)
  obtain ⟨post1, h7, -, h8, -⟩ := h6 DOMAIN_RUNNING rfl (by decide)
  obtain ⟨post2, h9, h10⟩ := h8 rfl
  exact ⟨rfl, by decide, rfl, pre, post, h1, h2, post2, by rw [h7, h9]; rfl, h10⟩

/-- C9: `createVM` calls the gateway in the order `CloneAndResizeDisk`, `DomainDefineXML`,
`Create` and stops at the first call the gateway fails.  If the gateway fails the clone, the
clone is the only call of the run; if it fails the definition, the run is the clone and the
definition; if it fails the start, the run is the three calls; in each case the response is
nil and the error is that of the failed step, and the trace holds no other call, so nothing
is undone.  If the gateway fails none of the three calls, the run is the three calls and
`createVM` returns a response and no error; hence it returns an error only if one of the
three steps failed. -/
theorem createVM_steps {σ : Type} (request : VMCreationRequest) (lq : LibvirtQemu σ) (s0 : σ)
    (rng0 : Entropy) :
    (∀ e, (lq.CloneAndResizeDisk request.BaseImage (diskPathOf (rng0 0).String) request.DiskSize true
        s0).1 = some e →
      (createVM request lq s0 rng0).trace = [.CloneAndResizeDisk request.BaseImage (diskPathOf (rng0 0).String) request.DiskSize true (some e)] ∧
      (createVM request lq s0 rng0).resp = none ∧
      (createVM request lq s0 rng0).err =
        some (Errorf "failed to clone and resize disk: " e)) ∧
    (∀ e, (lq.CloneAndResizeDisk request.BaseImage (diskPathOf (rng0 0).String) request.DiskSize true
        s0).1 = none →
      (lq.DomainDefineXML
        (xmlConfigOf (rng0 0).String (rng0 0).String (wrapInt64 (request.Memory * 1024))
        request.VCPUs (diskPathOf (rng0 0).String) (generateMACAddress fun n => rng0 (n + 1)).1
        (cpuPinningXMLOf request.CPUPinning))
        (lq.CloneAndResizeDisk request.BaseImage (diskPathOf (rng0 0).String) request.DiskSize true
        s0).2).1 = .error e →
      (createVM request lq s0 rng0).trace =
        [.CloneAndResizeDisk request.BaseImage (diskPathOf (rng0 0).String) request.DiskSize true none,
         .DomainDefineXML
        (xmlConfigOf (rng0 0).String (rng0 0).String (wrapInt64 (request.Memory * 1024))
        request.VCPUs (diskPathOf (rng0 0).String) (generateMACAddress fun n => rng0 (n + 1)).1
        (cpuPinningXMLOf request.CPUPinning))
          (.error e)] ∧
      (createVM request lq s0 rng0).resp = none ∧
      (createVM request lq s0 rng0).err = some (Errorf "failed to define the domain: " e)) ∧
    (∀ d e, (lq.CloneAndResizeDisk request.BaseImage (diskPathOf (rng0 0).String) request.DiskSize true
        s0).1 = none →
      (lq.DomainDefineXML
        (xmlConfigOf (rng0 0).String (rng0 0).String (wrapInt64 (request.Memory * 1024))
        request.VCPUs (diskPathOf (rng0 0).String) (generateMACAddress fun n => rng0 (n + 1)).1
        (cpuPinningXMLOf request.CPUPinning))
        (lq.CloneAndResizeDisk request.BaseImage (diskPathOf (rng0 0).String) request.DiskSize true
        s0).2).1 = .ok d →
      (lq.Create d (lq.DomainDefineXML
        (xmlConfigOf (rng0 0).String (rng0 0).String (wrapInt64 (request.Memory * 1024))
        request.VCPUs (diskPathOf (rng0 0).String) (generateMACAddress fun n => rng0 (n + 1)).1
        (cpuPinningXMLOf request.CPUPinning))
        (lq.CloneAndResizeDisk request.BaseImage (diskPathOf (rng0 0).String) request.DiskSize true
        s0).2).2).1 = some e →
      (createVM request lq s0 rng0).trace =
        [.CloneAndResizeDisk request.BaseImage (diskPathOf (rng0 0).String) request.DiskSize true none,
         .DomainDefineXML
        (xmlConfigOf (rng0 0).String (rng0 0).String (wrapInt64 (request.Memory * 1024))
        request.VCPUs (diskPathOf (rng0 0).String) (generateMACAddress fun n => rng0 (n + 1)).1
        (cpuPinningXMLOf request.CPUPinning))
          (.ok d),
         .Create d (some e)] ∧
      (createVM request lq s0 rng0).resp = none ∧
      (createVM request lq s0 rng0).err = some (Errorf "failed to start the domain: " e)) ∧
    (∀ d, (lq.CloneAndResizeDisk request.BaseImage (diskPathOf (rng0 0).String) request.DiskSize true
        s0).1 = none →
      (lq.DomainDefineXML
        (xmlConfigOf (rng0 0).String (rng0 0).String (wrapInt64 (request.Memory * 1024))
        request.VCPUs (diskPathOf (rng0 0).String) (generateMACAddress fun n => rng0 (n + 1)).1
        (cpuPinningXMLOf request.CPUPinning))
        (lq.CloneAndResizeDisk request.BaseImage (diskPathOf (rng0 0).String) request.DiskSize true
        s0).2).1 = .ok d →
      (lq.Create d (lq.DomainDefineXML
        (xmlConfigOf (rng0 0).String (rng0 0).String (wrapInt64 (request.Memory * 1024))
        request.VCPUs (diskPathOf (rng0 0).String) (generateMACAddress fun n => rng0 (n + 1)).1
        (cpuPinningXMLOf request.CPUPinning))
        (lq.CloneAndResizeDisk request.BaseImage (diskPathOf (rng0 0).String) request.DiskSize true
        s0).2).2).1 = none →
      (createVM request lq s0 rng0).trace =
        [.CloneAndResizeDisk request.BaseImage (diskPathOf (rng0 0).String) request.DiskSize true none,
         .DomainDefineXML
        (xmlConfigOf (rng0 0).String (rng0 0).String (wrapInt64 (request.Memory * 1024))
        request.VCPUs (diskPathOf (rng0 0).String) (generateMACAddress fun n => rng0 (n + 1)).1
        (cpuPinningXMLOf request.CPUPinning))
          (.ok d),
         .Create d none] ∧
      (∃ r, (createVM request lq s0 rng0).resp = some r) ∧
      (createVM request lq s0 rng0).err = none) ∧
    ((createVM request lq s0 rng0).err ≠ none →
      ∃ ev ∈ (createVM request lq s0 rng0).trace, ev.succeeded = false) := by
  refine ⟨?_, ?_, ?_, ?_, ?_⟩
  · intro e hc
    simp only [createVM, uuidNew, hc, and_self]
  · intro e hc hd
    simp only [createVM, uuidNew, hc, hd, List.singleton_append, and_self]
  · intro d e hc hd hr
    simp only [createVM, uuidNew, hc, hd, hr, List.singleton_append, List.cons_append,
      List.nil_append, and_self]
  · intro d hc hd hr
    simp only [createVM, uuidNew, hc, hd, hr, List.singleton_append, List.cons_append,
      List.nil_append, true_and, and_true]
    exact ⟨_, rfl⟩
  · intro herr
    rcases createVM_paths request lq s0 rng0 with
      ⟨e, -, ht, -, -⟩ | ⟨e, ht, -, -⟩ | ⟨d, e, ht, -, -⟩ | ⟨d, -, -, he⟩
    · rw [ht]
      simp [Event.succeeded]
    · rw [ht]
      simp [Event.succeeded]
    · rw [ht]
      simp [Event.succeeded]
    · exact absurd he herr

/-- C9 on a gateway that fails the clone: the clone is the only call, the response is nil
and the error is that of the clone. -/
theorem createVM_steps_witness :
    ({ okScript with clone := some (.errorString "exit status 1") }.gateway.CloneAndResizeDisk
      testRequest.BaseImage (diskPathOf (testEntropy 0).String) testRequest.DiskSize true
      ()).1 = some (.errorString "exit status 1") ∧
    (createVM testRequest { okScript with clone := some (.errorString "exit status 1") }.gateway
      () testEntropy).trace =
      [.CloneAndResizeDisk testRequest.BaseImage (diskPathOf (testEntropy 0).String)
        testRequest.DiskSize true (some (.errorString "exit status 1"))] ∧
    (createVM testRequest { okScript with clone := some (.errorString "exit status 1") }.gateway
      () testEntropy).resp = none ∧
    (createVM testRequest { okScript with clone := some (.errorString "exit status 1") }.gateway
      () testEntropy).err =
      some (Errorf "failed to clone and resize disk: " (.errorString "exit status 1")) :=
  ⟨rfl, (createVM_steps testRequest
    { okScript with clone := some (.errorString "exit status 1") }.gateway () testEntropy).1
    _ rfl⟩

set_option maxRecDepth 100000 in
/-- C10 as stated fails: for the request with Memory 2^53, a Go `int`, the product
`Memory*1024` overflows the 64-bit `int`, and the descriptor passed to `DomainDefineXML` has
the memory element `-9223372036854775808`, not the request's Memory multiplied by 1024. -/
theorem createVM_descriptor_memory_counterexample :
    (-2 ^ 63 ≤ bigRequest.Memory ∧ bigRequest.Memory < 2 ^ 63) ∧
    (descriptorsOf (createVM bigRequest okScript.gateway () testEntropy).trace).length = 1 ∧
    ∀ xml ∈ descriptorsOf (createVM bigRequest okScript.gateway () testEntropy).trace,
      ¬ Contains xml ("<memory unit='KiB'>" ++ fmtD (bigRequest.Memory * 1024) ++ "</memory>") ∧
      Contains xml "<memory unit='KiB'>-9223372036854775808</memory>" := by
  decide

/-- C10, amended: every descriptor `createVM` passes to `DomainDefineXML` has domain type
`kvm`, a `name` and a `uuid` element holding the minted identifier, a `memory` element in KiB
whose value is the request's Memory times 1024 in Go's 64-bit `int` arithmetic (the exact
product whenever it fits in an `int`), a static `vcpu` element with the request's VCPUs, and a
qcow2 disk whose source file is the path passed as destination to `CloneAndResizeDisk`; a
response, when there is one, carries the same identifier as VMID and the same path as
DiskFile. -/
theorem createVM_descriptor {σ : Type} (request : VMCreationRequest) (lq : LibvirtQemu σ)
    (s0 : σ) (rng0 : Entropy) (xml : String)
    (hx : xml ∈ descriptorsOf (createVM request lq s0 rng0).trace) :
    Contains xml "<domain type='kvm'>" ∧
    Contains xml ("<name>" ++ (rng0 0).String ++ "</name>") ∧
    Contains xml ("<uuid>" ++ (rng0 0).String ++ "</uuid>") ∧
    Contains xml
      ("<memory unit='KiB'>" ++ fmtD (wrapInt64 (request.Memory * 1024)) ++ "</memory>") ∧
    (-2 ^ 63 ≤ request.Memory * 1024 → request.Memory * 1024 < 2 ^ 63 →
      Contains xml ("<memory unit='KiB'>" ++ fmtD (request.Memory * 1024) ++ "</memory>")) ∧
    Contains xml ("<vcpu placement='static'>" ++ fmtD request.VCPUs ++ "</vcpu>") ∧
    Contains xml "<driver name='qemu' type='qcow2'/>" ∧
    Contains xml ("<source file='" ++ diskPathOf (rng0 0).String ++ "'/>") ∧
    cloneDestinationsOf (createVM request lq s0 rng0).trace = [diskPathOf (rng0 0).String] ∧
    (descriptorsOf (createVM request lq s0 rng0).trace).length = 1 ∧
    (∀ r, (createVM request lq s0 rng0).resp = some r →
      r.VMID = (rng0 0).String ∧ r.DiskFile = diskPathOf (rng0 0).String) := by
  have hel := xmlConfigOf_elements (rng0 0).String (rng0 0).String
    (wrapInt64 (request.Memory * 1024)) request.VCPUs (diskPathOf (rng0 0).String)
    (generateMACAddress fun n => rng0 (n + 1)).1 (cpuPinningXMLOf request.CPUPinning)
  obtain ⟨h1, h2, h3, h4, h5, h6, h7, -⟩ := hel
  have hxml : xml = xmlConfigOf (rng0 0).String (rng0 0).String
      (wrapInt64 (request.Memory * 1024)) request.VCPUs (diskPathOf (rng0 0).String)
      (generateMACAddress fun n => rng0 (n + 1)).1 (cpuPinningXMLOf request.CPUPinning) ∧
      cloneDestinationsOf (createVM request lq s0 rng0).trace = [diskPathOf (rng0 0).String] ∧
      (descriptorsOf (createVM request lq s0 rng0).trace).length = 1 ∧
      (∀ r, (createVM request lq s0 rng0).resp = some r →
        r.VMID = (rng0 0).String ∧ r.DiskFile = diskPathOf (rng0 0).String) := by
    rcases createVM_paths request lq s0 rng0 with
      ⟨e, -, ht, hr, -⟩ | ⟨e, ht, hr, -⟩ | ⟨d, e, ht, hr, -⟩ | ⟨d, ht, hr, -⟩
    · rw [ht] at hx
      cases hx
    · rw [ht] at hx ⊢
      rw [hr]
      exact ⟨List.mem_singleton.mp hx, rfl, rfl, fun r h => by cases h⟩
    · rw [ht] at hx ⊢
      rw [hr]
      exact ⟨List.mem_singleton.mp hx, rfl, rfl, fun r h => by cases h⟩
    · rw [ht] at hx ⊢
      rw [hr]
      refine ⟨List.mem_singleton.mp hx, rfl, rfl, fun r h => ?_⟩
      cases h
      exact ⟨rfl, rfl⟩
  obtain ⟨hxml, hcl, hlen, hresp⟩ := hxml
  rw [hxml]
  have h4a : -2 ^ 63 ≤ request.Memory * 1024 → request.Memory * 1024 < 2 ^ 63 →
      Contains (xmlConfigOf (rng0 0).String (rng0 0).String
        (wrapInt64 (request.Memory * 1024)) request.VCPUs (diskPathOf (rng0 0).String)
        (generateMACAddress fun n => rng0 (n + 1)).1 (cpuPinningXMLOf request.CPUPinning))
        ("<memory unit='KiB'>" ++ fmtD (request.Memory * 1024) ++ "</memory>") := by
    intro hlo hhi
    have h := h4
    rw [wrapInt64_of_fits _ hlo hhi] at h ⊢
    exact h
  exact ⟨h1, h2, h3, h4, h4a, h5, h6, h7, hcl, hlen, hresp⟩

set_option maxRecDepth 100000 in
/-- C10, amended, at the request of `TestCreateVM`: the descriptor passed on a gateway where
every call succeeds holds the memory element `4194304`, that is 4096 times 1024. -/
theorem createVM_descriptor_witness :
    xmlConfigOf testID testID 4194304 2 (diskPathOf testID) "00:16:3e:12:3e:45"
        "<cpu mode='host-passthrough' check='full'><numactrls><numactrl id='0'/><numactrl id='1'/></numactrls></cpu>"
      ∈ descriptorsOf (createVM testRequest okScript.gateway () testEntropy).trace ∧
    Contains (xmlConfigOf testID testID 4194304 2 (diskPathOf testID) "00:16:3e:12:3e:45"
        "<cpu mode='host-passthrough' check='full'><numactrls><numactrl id='0'/><numactrl id='1'/></numactrls></cpu>")
      ("<memory unit='KiB'>" ++ fmtD (testRequest.Memory * 1024) ++ "</memory>") :=
  have hm : xmlConfigOf testID testID 4194304 2 (diskPathOf testID) "00:16:3e:12:3e:45"
        "<cpu mode='host-passthrough' check='full'><numactrls><numactrl id='0'/><numactrl id='1'/></numactrls></cpu>"
      ∈ descriptorsOf (createVM testRequest okScript.gateway () testEntropy).trace := by
    decide
  ⟨hm, (createVM_descriptor testRequest okScript.gateway () testEntropy _ hm).2.2.2.2.1
    (by decide) (by decide)⟩

/-! ## Auxiliary facts for the later theorems -/

theorem hexDigit_spec (n : Nat) (h : n < 16) :
    hexDigit n ∈ "0123456789abcdef".data ∧ hexValue (hexDigit n) = n := by
  interval_cases n <;> decide

theorem fmt02x_spec (b : Fin 256) :
    ∃ hi lo, fmt02x b = String.mk [hi, lo] ∧ hi ∈ "0123456789abcdef".data ∧
      lo ∈ "0123456789abcdef".data ∧ hexValue hi * 16 + hexValue lo = b.val := by
  have h1 : b.val / 16 < 16 := by omega
  have h2 : b.val % 16 < 16 := by omega
  refine ⟨hexDigit (b.val / 16), hexDigit (b.val % 16), rfl, (hexDigit_spec _ h1).1,
    (hexDigit_spec _ h2).1, ?_⟩
  rw [(hexDigit_spec _ h1).2, (hexDigit_spec _ h2).2]
  omega

theorem fmt02x_length (b : Fin 256) : (fmt02x b).length = 2 := rfl

theorem steps_path {σ : Type} (lq : LibvirtQemu σ) (vmID diskFile : String) (s0 : σ) :
    ∀ ev ∈ (DeleteVM.steps lq vmID diskFile s0).trace, ev.path? = none := by
  rcases steps_cases lq vmID diskFile s0 with
    ⟨e, g, -, -, -, ht⟩ | ⟨d, e, e1, -, -, -, -, -, ht⟩ | ⟨d, e, s, -, -, heq⟩ | ⟨d, s, -, -, heq⟩
  · simp [ht, Event.path?]
  · simp [ht, Event.path?]
  · rw [heq]
    rcases finish_cases lq vmID diskFile d s with
      ⟨e', -, -, ht⟩ | ⟨st, e', -, -, -, ht⟩ | ⟨st, e', -, -, -, ht⟩ |
      ⟨st, -, -, -, ht⟩ | ⟨e', -, -, ht⟩ | ⟨-, -, ht⟩ <;>
    simp [Run.after, ht, Event.path?]
  · rw [heq]
    rcases finish_cases lq vmID diskFile d s with
      ⟨e', -, -, ht⟩ | ⟨st, e', -, -, -, ht⟩ | ⟨st, e', -, -, -, ht⟩ |
      ⟨st, -, -, -, ht⟩ | ⟨e', -, -, ht⟩ | ⟨-, -, ht⟩ <;>
    simp [Run.after, ht, Event.path?]

theorem scanLtC_append (p : Bool) (a b : List Char) :
    scanLtC p (a ++ b) = (scanLtC p a || scanLtC (endsLt p a) b) := by
  induction a generalizing p with
  | nil => simp [scanLtC, endsLt]
  | cons c cs ih => simp [scanLtC, endsLt, ih, Bool.or_assoc]

theorem endsLt_append (p : Bool) (a b : List Char) :
    endsLt p (a ++ b) = endsLt (endsLt p a) b := by
  induction a generalizing p with
  | nil => simp [endsLt]
  | cons c cs ih => simp [endsLt, ih]

theorem noLtC_append (a b : String) (ha : NoLtC a) (hb : NoLtC b) : NoLtC (a ++ b) := by
  unfold NoLtC at *
  rw [String.data_append, scanLtC_append, endsLt_append, ha.1, ha.2, hb.1, hb.2]
  exact ⟨rfl, rfl⟩

theorem noLtC_of_chars (l : List Char) (h : ∀ c ∈ l, c ≠ '<') : NoLtC (String.mk l) := by
  unfold NoLtC
  induction l with
  | nil => exact ⟨rfl, rfl⟩
  | cons c cs ih =>
    have hc : (c == '<') = false := by simpa using h c (List.mem_cons_self _ _)
    have := ih (fun d hd => h d (List.mem_cons_of_mem _ hd))
    simpa [scanLtC, endsLt, hc] using this

theorem scanLtC_of_infix (rest l : List Char) (h : ('<' :: 'c' :: rest) <:+: l) :
    scanLtC false l = true := by
  obtain ⟨s, t, rfl⟩ := h
  simp [scanLtC_append, scanLtC]

theorem not_contains_cpu (s : String) (h : NoLtC s) : ¬ Contains s "<cpu" := by
  intro hc
  rw [contains_iff] at hc
  have := scanLtC_of_infix ['p', 'u'] s.data hc
  rw [h.1] at this
  cases this

theorem hexDigit_ne_lt (n : Nat) : hexDigit n ≠ '<' := by
  by_cases h : n < 16
  · interval_cases n <;> decide
  · unfold hexDigit
    rw [List.getD_eq_default _ _ (by simpa using h)]
    decide

theorem noLtC_fmt02x (b : Fin 256) : NoLtC (fmt02x b) := by
  apply noLtC_of_chars
  intro c hc
  simp only [List.mem_cons, List.mem_singleton, List.not_mem_nil, or_false] at hc
  rcases hc with rfl | rfl <;> exact hexDigit_ne_lt _

theorem noLtC_uuid (u : UUID) : NoLtC u.String := by
  unfold UUID.String UUID.hex
  simp only [List.map, String.join, List.foldl]
  repeat (first | with_reducible exact noLtC_fmt02x _ | with_reducible apply noLtC_append |
    decide)

theorem digitChar_ne_lt (n : Nat) (h : n < 10) : Nat.digitChar n ≠ '<' := by
  interval_cases n <;> decide

theorem toDigitsCore_ne_lt (fuel n : Nat) (ds : List Char) (h : ∀ c ∈ ds, c ≠ '<') :
    ∀ c ∈ Nat.toDigitsCore 10 fuel n ds, c ≠ '<' := by
  induction fuel generalizing n ds with
  | zero => simpa [Nat.toDigitsCore] using h
  | succ k ih =>
    have hcons : ∀ c ∈ Nat.digitChar (n % 10) :: ds, c ≠ '<' := by
      intro c hc
      rcases List.mem_cons.mp hc with rfl | hc
      · exact digitChar_ne_lt _ (Nat.mod_lt n (by decide))
      · exact h c hc
    unfold Nat.toDigitsCore
    simp only []
    split
    · exact hcons
    · exact ih _ _ hcons

theorem noLtC_natRepr (n : Nat) : NoLtC (Nat.repr n) :=
  noLtC_of_chars _ (toDigitsCore_ne_lt _ _ _ (by simp))

theorem noLtC_fmtD (n : Int) : NoLtC (fmtD n) := by
  cases n with
  | ofNat m => exact noLtC_natRepr m
  | negSucc m => exact noLtC_append _ _ (by decide) (noLtC_natRepr _)

theorem noLtC_mac (rng : Entropy) : NoLtC (generateMACAddress rng).1 := by
  unfold generateMACAddress
  simp only []
  repeat (first | with_reducible exact noLtC_fmt02x _ | with_reducible apply noLtC_append |
    decide)

set_option maxRecDepth 100000 in
theorem noLtC_xmlConfigOf (name uuid : String) (memory vcpus : Int) (diskPath mac : String)
    (hn : NoLtC name) (hu : NoLtC uuid) (hd : NoLtC diskPath) (hm : NoLtC mac) :
    NoLtC (xmlConfigOf name uuid memory vcpus diskPath mac "") := by
  unfold xmlConfigOf
  repeat (first | with_reducible exact hn | with_reducible exact hu | with_reducible exact hd |
    with_reducible exact hm | with_reducible exact noLtC_fmtD _ |
    with_reducible apply noLtC_append | decide)

theorem foldl_append_init (l : List String) (a : String) :
    l.foldl (fun r s => r ++ s) a = a ++ String.join l := by
  unfold String.join
  induction l generalizing a with
  | nil => simp
  | cons x xs ih =>
    simp only [List.foldl_cons]
    rw [ih (a ++ x), ih ("" ++ x), String.append_assoc]
    simp

theorem cpuPinningXMLOf_some (p : CPUPinning) :
    cpuPinningXMLOf (some p) =
      "<cpu mode='host-passthrough' check='full'><numactrls>" ++
        String.join (p.Cores.map fun core => "<numactrl id='" ++ fmtD core ++ "'/>") ++
        "</numactrls></cpu>" := by
  have h : ∀ (l : List Int) (a : String),
      l.foldl (fun pinningXML core => pinningXML ++ ("<numactrl id='" ++ fmtD core ++ "'/>")) a =
        a ++ String.join (l.map fun core => "<numactrl id='" ++ fmtD core ++ "'/>") := by
    intro l a
    rw [← foldl_append_init, List.foldl_map]
  simp only [cpuPinningXMLOf, h]

theorem xmlConfigOf_cpu (name uuid : String) (memory vcpus : Int)
    (diskPath mac cpuPinningXML : String) :
    Contains (xmlConfigOf name uuid memory vcpus diskPath mac cpuPinningXML) cpuPinningXML := by
  unfold xmlConfigOf
  repeat (first | with_reducible exact contains_append_self _ _ |
    with_reducible apply contains_append_of_left)

theorem descriptor_eq {σ : Type} (request : VMCreationRequest) (lq : LibvirtQemu σ)
    (s0 : σ) (rng0 : Entropy) (xml : String)
    (hx : xml ∈ descriptorsOf (createVM request lq s0 rng0).trace) :
    xml = xmlConfigOf (rng0 0).String (rng0 0).String
      (wrapInt64 (request.Memory * 1024)) request.VCPUs (diskPathOf (rng0 0).String)
      (generateMACAddress fun n => rng0 (n + 1)).1 (cpuPinningXMLOf request.CPUPinning) := by
  rcases createVM_paths request lq s0 rng0 with
    ⟨e, -, ht, -, -⟩ | ⟨e, ht, -, -⟩ | ⟨d, e, ht, -, -⟩ | ⟨d, ht, -, -⟩
  · rw [ht] at hx
    cases hx
  · rw [ht] at hx
    exact List.mem_singleton.mp hx
  · rw [ht] at hx
    exact List.mem_singleton.mp hx
  · rw [ht] at hx
    exact List.mem_singleton.mp hx

/-! ## Theorems, continued -/

/-- C11: in every descriptor `createVM` passes to `DomainDefineXML`, a request with CPU pinning
on cores `c1, ..., cn` gives the section `<cpu mode='host-passthrough' check='full'>` whose
`numactrls` list holds one `<numactrl id='ci'/>` per requested core, in request order, and
nothing else; a request without CPU pinning gives a descriptor in which `<cpu` does not
occur. -/
theorem createVM_cpu_section {σ : Type} (request : VMCreationRequest) (lq : LibvirtQemu σ)
    (s0 : σ) (rng0 : Entropy) (xml : String)
    (hx : xml ∈ descriptorsOf (createVM request lq s0 rng0).trace) :
    (∀ p, request.CPUPinning = some p →
      Contains xml
        ("<cpu mode='host-passthrough' check='full'><numactrls>" ++
          String.join (p.Cores.map fun core => "<numactrl id='" ++ fmtD core ++ "'/>") ++
          "</numactrls></cpu>")) ∧
    (request.CPUPinning = none → ¬ Contains xml "<cpu") := by
  have hxml := descriptor_eq request lq s0 rng0 xml hx
  constructor
  · intro p hp
    rw [hxml, hp, ← cpuPinningXMLOf_some]
    exact xmlConfigOf_cpu _ _ _ _ _ _ _
  · intro hp
    rw [hxml, hp]
    apply not_contains_cpu
    exact noLtC_xmlConfigOf _ _ _ _ _ _ (noLtC_uuid _) (noLtC_uuid _)
      (noLtC_append _ _ (noLtC_append _ _ (by decide) (noLtC_uuid _)) (by decide))
      (noLtC_mac _)

set_option maxRecDepth 100000 in
/-- C11 at the request of `TestCreateVM`, which pins cores 0 and 1. -/
theorem createVM_cpu_section_witness :
    xmlConfigOf testID testID 4194304 2 (diskPathOf testID) "00:16:3e:12:3e:45"
        (cpuPinningXMLOf (some { Cores := [0, 1] }))
      ∈ descriptorsOf (createVM testRequest okScript.gateway () testEntropy).trace ∧
    Contains (xmlConfigOf testID testID 4194304 2 (diskPathOf testID) "00:16:3e:12:3e:45"
        (cpuPinningXMLOf (some { Cores := [0, 1] })))
      ("<cpu mode='host-passthrough' check='full'><numactrls>" ++
        String.join (([0, 1] : List Int).map fun core => "<numactrl id='" ++ fmtD core ++ "'/>")
        ++ "</numactrls></cpu>") :=
  have hm : xmlConfigOf testID testID 4194304 2 (diskPathOf testID) "00:16:3e:12:3e:45"
        (cpuPinningXMLOf (some { Cores := [0, 1] }))
      ∈ descriptorsOf (createVM testRequest okScript.gateway () testEntropy).trace := by
    decide
  ⟨hm, (createVM_cpu_section testRequest okScript.gateway () testEntropy _ hm).1 _ rfl⟩

/-- C12: for every identifier drawn, `generateMACAddress` returns the 17 characters made of
`00:16:3e:` and the two-digit lowercase hexadecimal renderings of bytes 0, 1 and 2 of the
identifier, separated by colons; each pair consists of two digits among `0123456789abcdef`
whose value, sixteen times the first plus the second, is the byte. -/
theorem generateMACAddress_format (rng : Entropy) :
    (generateMACAddress rng).1 =
      "00:16:3e:" ++ fmt02x ((rng 0).byte 0) ++ ":" ++ fmt02x ((rng 0).byte 1) ++ ":" ++
        fmt02x ((rng 0).byte 2) ∧
    (generateMACAddress rng).1.length = 17 ∧
    ∀ i : Fin 16, ∃ hi lo, fmt02x ((rng 0).byte i) = String.mk [hi, lo] ∧
      hi ∈ "0123456789abcdef".data ∧ lo ∈ "0123456789abcdef".data ∧
      hexValue hi * 16 + hexValue lo = ((rng 0).byte i).val := by
  refine ⟨rfl, ?_, fun i => fmt02x_spec _⟩
  simp only [generateMACAddress, uuidNew, String.length_append, fmt02x_length]
  rfl

set_option maxRecDepth 100000 in
/-- C13 fails on the code: with an identifier source whose successive identifiers differ,
the response of a successful `createVM` records the MAC address `00:16:3e:02:02:02`, drawn by
a second call of `generateMACAddress`, while the descriptor passed to `DomainDefineXML` holds
the interface address `00:16:3e:01:01:01`. -/
theorem createVM_mac_mismatch :
    (createVM testRequest okScript.gateway () countingEntropy).err = none ∧
    (createVM testRequest okScript.gateway () countingEntropy).resp.map
      VMCreationResponse.MacAddress = some "00:16:3e:02:02:02" ∧
    (descriptorsOf (createVM testRequest okScript.gateway () countingEntropy).trace).length = 1 ∧
    ∀ xml ∈ descriptorsOf (createVM testRequest okScript.gateway () countingEntropy).trace,
      Contains xml "<mac address='00:16:3e:01:01:01'/>" ∧
      ¬ Contains xml "<mac address='00:16:3e:02:02:02'/>" ∧
      ¬ Contains xml "00:16:3e:02:02:02" := by
  decide

/-- C14: the first step of every run of `createVM` is a call of `CloneAndResizeDisk` with the
request's BaseImage as source, `/var/lib/libvirt/images/<VMID>.qcow2` as destination, the
request's DiskSize as size and shrink set; no other call of `CloneAndResizeDisk` follows, and
a response, when there is one, carries the identifier of that path as VMID. -/
theorem createVM_clone_first {σ : Type} (request : VMCreationRequest) (lq : LibvirtQemu σ)
    (s0 : σ) (rng0 : Entropy) :
    ∃ r rest, (createVM request lq s0 rng0).trace =
        .CloneAndResizeDisk request.BaseImage
          ("/var/lib/libvirt/images/" ++ (rng0 0).String ++ ".qcow2") request.DiskSize true r ::
          rest ∧
      rest.countP Event.isCloneAndResizeDisk = 0 ∧
      (gatewayCalls (createVM request lq s0 rng0).trace).head? =
        some (.CloneAndResizeDisk request.BaseImage
          ("/var/lib/libvirt/images/" ++ (rng0 0).String ++ ".qcow2") request.DiskSize true r) ∧
      ∀ resp, (createVM request lq s0 rng0).resp = some resp → resp.VMID = (rng0 0).String := by
  rcases createVM_paths request lq s0 rng0 with
    ⟨e, -, ht, hr, -⟩ | ⟨e, ht, hr, -⟩ | ⟨d, e, ht, hr, -⟩ | ⟨d, ht, hr, -⟩
  · exact ⟨_, [], ht, rfl, by rw [ht]; rfl, fun resp h => by rw [hr] at h; cases h⟩
  · exact ⟨_, _, ht, rfl, by rw [ht]; rfl, fun resp h => by rw [hr] at h; cases h⟩
  · exact ⟨_, _, ht, rfl, by rw [ht]; rfl, fun resp h => by rw [hr] at h; cases h⟩
  · refine ⟨_, _, ht, rfl, by rw [ht]; rfl, fun resp h => ?_⟩
    rw [hr] at h
    cases h
    rfl

/-- C15: after a successful lookup, when `GetName` returns `name` and `GetState` returns a
state, `getVMstatus` returns no error and the response with the identifier, the name, the
mapped status and the message "VM <name> is <status>", which for a running domain reads
"VM <name> is running"; when `GetName` fails, or `GetName` succeeds and `GetState` fails, it
returns a nil response and that error. -/
theorem getVMstatus_response {σ : Type} (lq : LibvirtQemu σ) (vmID : String) (s0 : σ)
    (domain : Domain) (hl : (lq.LookupDomainByUUIDString vmID s0).1 = .ok domain) :
    (∀ name state, (lq.GetName domain (lq.LookupDomainByUUIDString vmID s0).2).1 = .ok name →
      (lq.GetState domain
        (lq.GetName domain (lq.LookupDomainByUUIDString vmID s0).2).2).1 = .ok state →
      (getVMstatus lq vmID s0).err = none ∧
      (getVMstatus lq vmID s0).resp =
        some { VMID := vmID, Name := name, Status := statusOf state,
               Message := "VM " ++ name ++ " is " ++ statusOf state } ∧
      (state = DOMAIN_RUNNING →
        (getVMstatus lq vmID s0).resp =
          some { VMID := vmID, Name := name, Status := "running",
                 Message := "VM " ++ name ++ " is running" })) ∧
    (∀ e, (lq.GetName domain (lq.LookupDomainByUUIDString vmID s0).2).1 = .error e →
      (getVMstatus lq vmID s0).resp = none ∧ (getVMstatus lq vmID s0).err = some e.toGo) ∧
    (∀ name e, (lq.GetName domain (lq.LookupDomainByUUIDString vmID s0).2).1 = .ok name →
      (lq.GetState domain
        (lq.GetName domain (lq.LookupDomainByUUIDString vmID s0).2).2).1 = .error e →
      (getVMstatus lq vmID s0).resp = none ∧ (getVMstatus lq vmID s0).err = some e.toGo) := by
  refine ⟨fun name state hn hs => ?_, fun e hn => ?_, fun name e hn hs => ?_⟩
  · refine ⟨by simp only [getVMstatus, hl, hn, hs], by simp only [getVMstatus, hl, hn, hs], ?_⟩
    intro hrun
    subst hrun
    have hst : statusOf DOMAIN_RUNNING = "running" := by decide
    have hmsg : "VM " ++ name ++ " is " ++ "running" = "VM " ++ name ++ " is running" := by
      rw [String.append_assoc]
      rfl
    simp only [getVMstatus, hl, hn, hs, hst, hmsg]
  · simp only [getVMstatus, hl, hn, and_self]
  · simp only [getVMstatus, hl, hn, hs, and_self]

/-- C15 on the gateway of `TestGetVMStatus`: a running domain named `testVM`. -/
theorem getVMstatus_response_witness :
    ({ okScript with getState := .ok DOMAIN_RUNNING }.gateway.LookupDomainByUUIDString
      testID ()).1 = .ok 7 ∧
    (getVMstatus { okScript with getState := .ok DOMAIN_RUNNING }.gateway testID ()).resp =
      some { VMID := testID, Name := "testVM", Status := "running",
             Message := "VM testVM is running" } :=
  ⟨rfl, ((getVMstatus_response { okScript with getState := .ok DOMAIN_RUNNING }.gateway testID
    () 7 rfl).1 "testVM" DOMAIN_RUNNING rfl rfl).2.2 rfl⟩

/-- C16: the I/O limits of the request have no effect on `createVM`: with the IOLimits field
replaced by any value, absent or present with any IOPS, and the same gateway, gateway state
and identifier source, the run makes the same calls with the same arguments and results,
descriptor included, and returns the same response and error. -/
theorem createVM_ignores_IOLimits {σ : Type} (request : VMCreationRequest)
    (limits : Option IOLimits) (lq : LibvirtQemu σ) (s0 : σ) (rng0 : Entropy) :
    (createVM { request with IOLimits := limits } lq s0 rng0).trace =
      (createVM request lq s0 rng0).trace ∧
    (createVM { request with IOLimits := limits } lq s0 rng0).resp =
      (createVM request lq s0 rng0).resp ∧
    (createVM { request with IOLimits := limits } lq s0 rng0).err =
      (createVM request lq s0 rng0).err ∧
    descriptorsOf (createVM { request with IOLimits := limits } lq s0 rng0).trace =
      descriptorsOf (createVM request lq s0 rng0).trace :=
  ⟨rfl, rfl, rfl, rfl⟩

/-- C17: `CloneAndResizeDisk` first runs `qemu-img create -f qcow2 -F qcow2 -b <base> <dest>`;
if that fails it returns an error and runs nothing else; otherwise it runs exactly one more
command, `qemu-img resize [--shrink] <dest> <s>G`, where `--shrink` is present exactly when
shrink is set; it returns nil exactly when both commands succeed.  The unexported
`cloneAndResizeDisk` runs the same commands with the same results and returns the same
error. -/
theorem CloneAndResizeDisk_commands {ω : Type} (sh : Shell ω) (baseImage newDiskPath : String)
    (diskSizeGB : Int) (shrink : Bool) (w0 : ω) :
    ((∃ e, (LibvirtQemuImpl.CloneAndResizeDisk sh baseImage newDiskPath diskSizeGB shrink
          w0).commands =
        [(["qemu-img", "create", "-f", "qcow2", "-F", "qcow2", "-b", baseImage, newDiskPath],
          some e)] ∧
      (LibvirtQemuImpl.CloneAndResizeDisk sh baseImage newDiskPath diskSizeGB shrink w0).err =
        some (.errorString ("failed to clone the base image: " ++ e))) ∨
    (∃ r, (LibvirtQemuImpl.CloneAndResizeDisk sh baseImage newDiskPath diskSizeGB shrink
          w0).commands =
        [(["qemu-img", "create", "-f", "qcow2", "-F", "qcow2", "-b", baseImage, newDiskPath],
          none),
         (["qemu-img", "resize"] ++ (if shrink = true then ["--shrink"] else []) ++
            [newDiskPath, fmtD diskSizeGB ++ "G"], r)] ∧
      ((LibvirtQemuImpl.CloneAndResizeDisk sh baseImage newDiskPath diskSizeGB shrink
          w0).err = none ↔ r = none))) ∧
    ((LibvirtQemuImpl.CloneAndResizeDisk sh baseImage newDiskPath diskSizeGB shrink w0).err =
        none ↔
      ∀ c ∈ (LibvirtQemuImpl.CloneAndResizeDisk sh baseImage newDiskPath diskSizeGB shrink
        w0).commands, c.2 = none) ∧
    (cloneAndResizeDisk sh baseImage newDiskPath diskSizeGB shrink w0).commands =
      (LibvirtQemuImpl.CloneAndResizeDisk sh baseImage newDiskPath diskSizeGB shrink
        w0).commands ∧
    (cloneAndResizeDisk sh baseImage newDiskPath diskSizeGB shrink w0).err =
      (LibvirtQemuImpl.CloneAndResizeDisk sh baseImage newDiskPath diskSizeGB shrink w0).err := by
  have hrs : resizeCommand newDiskPath diskSizeGB shrink =
      ["qemu-img", "resize"] ++ (if shrink = true then ["--shrink"] else []) ++
        [newDiskPath, fmtD diskSizeGB ++ "G"] := by
    cases shrink <;> rfl
  unfold cloneAndResizeDisk LibvirtQemuImpl.CloneAndResizeDisk
  simp only [cloneCommand, hrs]
  split
  · rename_i e he
    exact ⟨Or.inl ⟨e, rfl, rfl⟩, by simp, rfl, rfl⟩
  · split
    · rename_i e he
      exact ⟨Or.inr ⟨some e, rfl, by simp⟩, by simp, rfl, rfl⟩
    · exact ⟨Or.inr ⟨none, rfl, by simp⟩, by simp, rfl, rfl⟩

/-- C18 as stated fails: on a gateway where the graceful stop fails, the forced stop succeeds
and the state read is `DOMAIN_RUNNING`, not `DOMAIN_SHUTOFF`, `DeleteVM` forces a stop once
more, undefines the domain and returns the response with status "deleted" and no error. -/
theorem DeleteVM_not_shutoff_counterexample :
    (shutdownFails.gateway.GetState 7 ()).1 = .ok DOMAIN_RUNNING ∧
    DOMAIN_RUNNING ≠ DOMAIN_SHUTOFF ∧
    gatewayCalls (DeleteVM shutdownFails.gateway okFS testID () ()).trace =
      [.LookupDomainByUUIDString testID (.ok 7),
        .Shutdown 7 (some (.errorString "failed to gracefully shut down the domain: timeout")),
        .Destroy 7 none, .GetState 7 (.ok DOMAIN_RUNNING), .Destroy 7 none,
        .Undefine 7 none] ∧
    (DeleteVM shutdownFails.gateway okFS testID () ()).err = none ∧
    (DeleteVM shutdownFails.gateway okFS testID () ()).resp =
      some { VMID := testID, Status := "deleted", Message := "VM successfully deleted",
             DiskFile := "/var/lib/libvirt/images/" ++ testID ++ ".qcow2" } :=
  ⟨rfl, by decide, rfl, rfl, rfl⟩

/-- C18, amended: in `DeleteVM`, if the state the gateway returns after the stop attempt is
not `DOMAIN_SHUTOFF`, `DeleteVM` calls `Destroy` once more.  It returns an error (and a nil
response) if that `Destroy` fails, or if it succeeds and the following `Undefine` fails;
if both succeed it returns no error and the response with status "deleted". -/
theorem DeleteVM_not_shutoff {σ φ : Type} (lq : LibvirtQemu σ) (os : FileSystem φ)
    (vmID : String) (s0 : σ) (f0 : φ) (domain : Domain) (s : σ) (st : DomainState)
    (hl : (lq.LookupDomainByUUIDString vmID s0).1 = .ok domain)
    (hstop : ((lq.Shutdown domain (lq.LookupDomainByUUIDString vmID s0).2).1 = none ∧
        s = (lq.Shutdown domain (lq.LookupDomainByUUIDString vmID s0).2).2) ∨
      ((lq.Shutdown domain (lq.LookupDomainByUUIDString vmID s0).2).1 ≠ none ∧
        (lq.Destroy domain
          (lq.Shutdown domain (lq.LookupDomainByUUIDString vmID s0).2).2).1 = none ∧
        s = (lq.Destroy domain
          (lq.Shutdown domain (lq.LookupDomainByUUIDString vmID s0).2).2).2))
    (hgs : (lq.GetState domain s).1 = .ok st) (hne : st ≠ DOMAIN_SHUTOFF) :
    (∀ e, (lq.Destroy domain (lq.GetState domain s).2).1 = some e →
      (DeleteVM lq os vmID s0 f0).resp = none ∧
      (DeleteVM lq os vmID s0 f0).err =
        some (Errorf "failed to forcefully stop the domain: " e) ∧
      (gatewayCalls (DeleteVM lq os vmID s0 f0).trace).getLast? =
        some (.Destroy domain (some e))) ∧
    (∀ e, (lq.Destroy domain (lq.GetState domain s).2).1 = none →
      (lq.Undefine domain (lq.Destroy domain (lq.GetState domain s).2).2).1 = some e →
      (DeleteVM lq os vmID s0 f0).resp = none ∧
      (DeleteVM lq os vmID s0 f0).err = some (Errorf "failed to undefine domain: " e)) ∧
    ((lq.Destroy domain (lq.GetState domain s).2).1 = none →
      (lq.Undefine domain (lq.Destroy domain (lq.GetState domain s).2).2).1 = none →
      (DeleteVM lq os vmID s0 f0).err = none ∧
      (DeleteVM lq os vmID s0 f0).resp =
        some { VMID := vmID, Status := "deleted", Message := "VM successfully deleted",
               DiskFile := "/var/lib/libvirt/images/" ++ vmID ++ ".qcow2" } ∧
      ∃ pre, gatewayCalls (DeleteVM lq os vmID s0 f0).trace =
        pre ++ [.GetState domain (.ok st), .Destroy domain none, .Undefine domain none]) := by
  obtain ⟨pre, hsteps, -, -, -⟩ := steps_after_stop lq vmID (diskPathOf vmID) s0 domain s hl hstop
  obtain ⟨-, h2, h3, h4, -, -⟩ := finish_run lq vmID (diskPathOf vmID) domain s
  have hg := gatewayCalls_DeleteVM lq os vmID s0 f0
  have hr : (DeleteVM lq os vmID s0 f0).resp =
      (DeleteVM.steps lq vmID (diskPathOf vmID) s0).resp := rfl
  have he : (DeleteVM lq os vmID s0 f0).err =
      (DeleteVM.steps lq vmID (diskPathOf vmID) s0).err := rfl
  rw [hg, hr, he, hsteps]
  refine ⟨?_, ?_, ?_⟩
  · intro e hd
    rw [h2 st e hgs hne hd]
    refine ⟨rfl, rfl, ?_⟩
    simp [Run.after, gatewayCalls, List.filter_append, Event.isGatewayCall]
  · intro e hd hu
    rw [h3 st e hgs hne hd hu]
    exact ⟨rfl, rfl⟩
  · intro hd hu
    rw [h4 st hgs hne hd hu]
    refine ⟨rfl, rfl, gatewayCalls pre, ?_⟩
    simp [Run.after, gatewayCalls, List.filter_append, Event.isGatewayCall]

/-- C18, amended, on a gateway where the graceful stop succeeds and the domain still reads as
running: the forced stop and `Undefine` succeed and the result is "deleted". -/
theorem DeleteVM_not_shutoff_witness :
    (stillRunning.gateway.LookupDomainByUUIDString testID ()).1 = .ok 7 ∧
    (stillRunning.gateway.Shutdown 7 ()).1 = none ∧
    (stillRunning.gateway.GetState 7 ()).1 = .ok DOMAIN_RUNNING ∧
    DOMAIN_RUNNING ≠ DOMAIN_SHUTOFF ∧
    (DeleteVM stillRunning.gateway okFS testID () ()).err = none :=
  ⟨rfl, rfl, rfl, by decide,
    ((DeleteVM_not_shutoff stillRunning.gateway okFS testID () () 7 () DOMAIN_RUNNING rfl
      (Or.inl ⟨rfl, rfl⟩) rfl (by decide)).2.2 rfl rfl).1⟩

/-- C19: on every run of `DeleteVM`, whatever the body returns, the trace is the steps of the
body, which hold every gateway call and touch no file, then the one `os.Stat` the file
system is asked for `/var/lib/libvirt/images/<id>.qcow2`, then, exactly when that stat
succeeds (the file exists), the one `os.Remove` the file system is asked for the same path;
no event touches any other path.  The deferred steps follow the gateway calls on the
NotFound and the generic lookup error return, on a forced-stop failure, on a state-query
failure and on an `Undefine` failure, each of which returns an error.  So a failed Delete
can remove the disk of a domain that is still defined: on a gateway where only `Undefine`
fails, `DeleteVM` returns an error and the trace holds a successful removal of the disk
file. -/
theorem DeleteVM_deferred_cleanup {σ φ : Type} (lq : LibvirtQemu σ) (os : FileSystem φ)
    (vmID : String) (s0 : σ) (f0 : φ) :
    (∃ pre post, (DeleteVM lq os vmID s0 f0).trace =
        pre ++ [.Stat ("/var/lib/libvirt/images/" ++ vmID ++ ".qcow2") (os.Stat ("/var/lib/libvirt/images/" ++ vmID ++ ".qcow2") f0).1] ++ post ∧
      gatewayCalls (DeleteVM lq os vmID s0 f0).trace = gatewayCalls pre ∧
      (∀ ev ∈ pre, ev.path? = none) ∧
      post.countP Event.isStat = 0 ∧
      ((os.Stat ("/var/lib/libvirt/images/" ++ vmID ++ ".qcow2") f0).1 = none →
        post.filter Event.isRemove =
          [.Remove ("/var/lib/libvirt/images/" ++ vmID ++ ".qcow2")
            (os.Remove ("/var/lib/libvirt/images/" ++ vmID ++ ".qcow2") (os.Stat ("/var/lib/libvirt/images/" ++ vmID ++ ".qcow2") f0).2).1] ∧
        (DeleteVM lq os vmID s0 f0).fs =
          (os.Remove ("/var/lib/libvirt/images/" ++ vmID ++ ".qcow2") (os.Stat ("/var/lib/libvirt/images/" ++ vmID ++ ".qcow2") f0).2).2) ∧
      ((os.Stat ("/var/lib/libvirt/images/" ++ vmID ++ ".qcow2") f0).1 ≠ none →
        post = [] ∧ (DeleteVM lq os vmID s0 f0).fs = (os.Stat ("/var/lib/libvirt/images/" ++ vmID ++ ".qcow2") f0).2)) ∧
    (∀ ev ∈ (DeleteVM lq os vmID s0 f0).trace, ∀ q, ev.path? = some q →
      q = "/var/lib/libvirt/images/" ++ vmID ++ ".qcow2") ∧
    (∀ e, (lq.LookupDomainByUUIDString vmID s0).1 = .error e →
      gatewayCalls (DeleteVM lq os vmID s0 f0).trace =
        [.LookupDomainByUUIDString vmID (.error e)] ∧
      (DeleteVM lq os vmID s0 f0).resp = none ∧ (DeleteVM lq os vmID s0 f0).err ≠ none) ∧
    (∀ d e e1, (lq.LookupDomainByUUIDString vmID s0).1 = .ok d →
      (lq.Shutdown d (lq.LookupDomainByUUIDString vmID s0).2).1 = some e →
      (lq.Destroy d (lq.Shutdown d (lq.LookupDomainByUUIDString vmID s0).2).2).1 = some e1 →
      gatewayCalls (DeleteVM lq os vmID s0 f0).trace =
        [.LookupDomainByUUIDString vmID (.ok d), .Shutdown d (some e), .Destroy d (some e1)] ∧
      (DeleteVM lq os vmID s0 f0).resp = none ∧ (DeleteVM lq os vmID s0 f0).err ≠ none) ∧
    (∀ d e, (lq.LookupDomainByUUIDString vmID s0).1 = .ok d →
      (lq.Shutdown d (lq.LookupDomainByUUIDString vmID s0).2).1 = none →
      (lq.GetState d (lq.Shutdown d (lq.LookupDomainByUUIDString vmID s0).2).2).1 = .error e →
      gatewayCalls (DeleteVM lq os vmID s0 f0).trace =
        [.LookupDomainByUUIDString vmID (.ok d), .Shutdown d none, .GetState d (.error e)] ∧
      (DeleteVM lq os vmID s0 f0).resp = none ∧ (DeleteVM lq os vmID s0 f0).err ≠ none) ∧
    (∀ d e, (lq.LookupDomainByUUIDString vmID s0).1 = .ok d →
      (lq.Shutdown d (lq.LookupDomainByUUIDString vmID s0).2).1 = none →
      (lq.GetState d (lq.Shutdown d (lq.LookupDomainByUUIDString vmID s0).2).2).1 = .ok DOMAIN_SHUTOFF →
      (lq.Undefine d
        (lq.GetState d (lq.Shutdown d (lq.LookupDomainByUUIDString vmID s0).2).2).2).1 = some e →
      gatewayCalls (DeleteVM lq os vmID s0 f0).trace =
        [.LookupDomainByUUIDString vmID (.ok d), .Shutdown d none,
          .GetState d (.ok DOMAIN_SHUTOFF), .Undefine d (some e)] ∧
      (DeleteVM lq os vmID s0 f0).resp = none ∧ (DeleteVM lq os vmID s0 f0).err ≠ none) ∧
    ((DeleteVM undefineFails.gateway okFS testID () ()).err ≠ none ∧
      Event.isUndefine (.Undefine 7 (some (.errorString "failed to undefine the domain: busy")))
        = true ∧
      (DeleteVM undefineFails.gateway okFS testID () ()).trace.filter
        (fun ev => ev.isUndefine || ev.isRemove) =
        [.Undefine 7 (some (.errorString "failed to undefine the domain: busy")),
         .Remove "/var/lib/libvirt/images/123e4567-e89b-12d3-a456-426614174000.qcow2" none]) := by
  obtain ⟨post, hc, h3, h4, h5, h6⟩ := cleanup_tied os (diskPathOf vmID) f0
  have hp := steps_path lq vmID (diskPathOf vmID) s0
  have ht : (DeleteVM lq os vmID s0 f0).trace =
      (DeleteVM.steps lq vmID (diskPathOf vmID) s0).trace ++
        (DeleteVM.cleanup os (diskPathOf vmID) f0).1 := rfl
  have hfs : (DeleteVM lq os vmID s0 f0).fs = (DeleteVM.cleanup os (diskPathOf vmID) f0).2 := rfl
  have hg := gatewayCalls_DeleteVM lq os vmID s0 f0
  have hr : (DeleteVM lq os vmID s0 f0).resp =
      (DeleteVM.steps lq vmID (diskPathOf vmID) s0).resp := rfl
  have he : (DeleteVM lq os vmID s0 f0).err =
      (DeleteVM.steps lq vmID (diskPathOf vmID) s0).err := rfl
  have hdp : diskPathOf vmID = "/var/lib/libvirt/images/" ++ vmID ++ ".qcow2" := rfl
  rw [hdp] at hc h4 h5 h6 hfs
  refine ⟨⟨(DeleteVM.steps lq vmID (diskPathOf vmID) s0).trace, post, ?_, hg, hp, h3, ?_, ?_⟩,
    ?_, ?_, ?_, ?_, ?_, ?_⟩
  · rw [ht, hdp, hc]
    simp
  · intro h
    rw [hfs]
    exact h5 h
  · intro h
    rw [hfs]
    exact h6 h
  · intro ev hev q hq
    rw [ht] at hev
    rcases List.mem_append.mp hev with h | h
    · rw [hp ev h] at hq
      cases hq
    · rw [hdp, hc] at h
      rcases List.mem_cons.mp h with h | h
      · subst h
        simp only [Event.path?, Option.some.injEq] at hq
        exact hq.symm
      · exact h4 ev h q hq
  · intro e hl
    rw [hg, hr, he]
    cases e with
    | libvirt er =>
      by_cases hcode : er.Code = ERR_NO_DOMAIN
      · simp [DeleteVM.steps, hl, hcode, gatewayCalls, Event.isGatewayCall]
      · simp [DeleteVM.steps, hl, hcode, gatewayCalls, Event.isGatewayCall]
    | errorString msg => simp [DeleteVM.steps, hl, gatewayCalls, Event.isGatewayCall]
    | notFound n => simp [DeleteVM.steps, hl, gatewayCalls, Event.isGatewayCall]
  · intro d e e1 hl hsd hds
    rw [hg, hr, he]
    simp [DeleteVM.steps, hl, hsd, hds, gatewayCalls, Event.isGatewayCall]
  · intro d e hl hsd hgs
    rw [hg, hr, he]
    simp [DeleteVM.steps, DeleteVM.finish, Run.after, hl, hsd, hgs, gatewayCalls,
      Event.isGatewayCall]
  · intro d e hl hsd hgs hun
    rw [hg, hr, he]
    simp [DeleteVM.steps, DeleteVM.finish, Run.after, hl, hsd, hgs, hun, gatewayCalls,
      Event.isGatewayCall]
  · exact ⟨by decide, rfl, rfl⟩

/-- C19 on a gateway whose lookup reports "no such domain" and a file system where the disk
file exists: `DeleteVM` returns an error and the lookup is its only gateway call, and the
file is removed all the same. -/
theorem DeleteVM_deferred_cleanup_witness :
    ({ okScript with lookup := .error (.libvirt ⟨42, 10, "Domain not found", 2⟩) }.gateway.LookupDomainByUUIDString
      testID ()).1 = .error (.libvirt ⟨42, 10, "Domain not found", 2⟩) ∧
    (DeleteVM { okScript with lookup := .error (.libvirt ⟨42, 10, "Domain not found", 2⟩) }.gateway
      okFS testID () ()).err ≠ none ∧
    (DeleteVM { okScript with lookup := .error (.libvirt ⟨42, 10, "Domain not found", 2⟩) }.gateway
      okFS testID () ()).trace =
      [.LookupDomainByUUIDString testID (.error (.libvirt ⟨42, 10, "Domain not found", 2⟩)),
       .Stat "/var/lib/libvirt/images/123e4567-e89b-12d3-a456-426614174000.qcow2" none,
       .Remove "/var/lib/libvirt/images/123e4567-e89b-12d3-a456-426614174000.qcow2" none] :=
  ⟨rfl, ((DeleteVM_deferred_cleanup
    { okScript with lookup := .error (.libvirt ⟨42, 10, "Domain not found", 2⟩) }.gateway okFS
    testID () ()).2.2.1 _ rfl).2.2, rfl⟩

end VmApi
